import Mathlib

/-!
# The Lua binding of the optical-flow engine (`generic/celiu.cpp`)

A shallow embedding of the binding's four functions, `Main_tensor_to_image`,
`Main_image_to_tensor`, `Main_optflow` (registered as `infer`) and `Main_warp`
(registered as `warp`), followed by the properties proved about them.

Modelling conventions.

* Tensor and image elements are C `double`s on both sides of the conversion and
  are only ever copied, so their carrier is an arbitrary type `α`.
* The sizes of a tensor are C `long`s; the binding stores them, its loop counters and
  its running offset in C `int`s.  The narrowing `long → int` keeps the low 32 bits
  (two's complement); an `int` that would pass `INT_MAX` (signed overflow) and an
  access outside a buffer are undefined in C and are failures of the model.
* Lua numbers (`double`) are modelled by the rational they denote; the conversion
  `double → int` truncates toward zero inside the range of `int` and gives `INT_MIN`
  outside it (the result of the x86-64 conversion instruction).
* A failure of the C code (a Lua error raised through `longjmp`, a TH argument check,
  undefined behaviour, a failure of the engine) is an `Except.error`.
* The classes `DImage` and `OpticalFlow` and the Lua/TH libraries are not part of
  `celiu.cpp`; they are modelled at their interface only.  The engine is a parameter
  and may fail as section 7 of the specification describes.
-/

namespace Celiu

/-! ## Machine integers -/

/-- The largest C `int`. -/
def INT_MAX : Nat := 2147483647

/-- The smallest C `int`. -/
def INT_MIN : Int := -2147483648

/-- The C conversion of a non-negative `long` to `int`: the low 32 bits, read as a
two's complement number. -/
def long_to_int (n : Nat) : Int :=
  if n % 4294967296 ≤ INT_MAX then Int.ofNat (n % 4294967296)
  else Int.ofNat (n % 4294967296) - 4294967296

/-- The C conversion of a `double` to `int`: the fractional part is discarded
(truncation toward zero); a value whose truncation is outside the range of `int` gives
`INT_MIN`. -/
def double_to_int (x : ℚ) : Int :=
  if INT_MIN ≤ Int.tdiv x.num x.den ∧ Int.tdiv x.num x.den ≤ (INT_MAX : Int) then
    Int.tdiv x.num x.den
  else INT_MIN

/-- Truncation toward zero, in the words of the specification: a non-negative number is
rounded down, a negative one up. -/
def truncToZero (x : ℚ) : Int :=
  if 0 ≤ x then ⌊x⌋ else ⌈x⌉

/-! ## Failures -/

/-- The failures section 7 of the specification gives the engine. -/
inductive EngineError where
  | InvalidInput
  | InvalidParameter
  | NumericalFailure
  deriving DecidableEq, Repr

/-- The ways a call into the binding can fail. -/
inductive Failure where
  /-- the error raised by `luaT_checkudata` for argument `narg`: the value is not a
  userdata of the type named `tname` -/
  | typerror (narg : Nat) (tname : String)
  /-- the argument check of `THTensor_(get3d)` / `THTensor_(set3d)`: the tensor is not
  3-D or the index is out of range -/
  | outOfRange
  /-- the read `tensor->size[i]` fell outside the size array of the tensor -/
  | sizeOverrun
  /-- the constructor `DImage(w, h, c)` was given a negative dimension or an element
  count beyond `INT_MAX` -/
  | badAlloc
  /-- the access `data()[offset]` fell outside the image buffer -/
  | bufferOverrun
  /-- an `int` was incremented beyond `INT_MAX` -/
  | intOverflow
  /-- the engine failed -/
  | engine (e : EngineError)
  deriving DecidableEq, Repr

/-! ## Tensors (the part of the TH interface the binding uses) -/

/-- A `THTensor` as seen through `nDimension`, `size[]`, `get3d` and `set3d`: the
number of dimensions, the size of each dimension, and (for a 3-D tensor) the element
stored at each index triple. -/
structure THTensor (α : Type) where
  nDimension : Nat
  size : Nat → Nat
  elem : Nat → Nat → Nat → α

/-- The read `tensor->size[i]`; the size array has `nDimension` entries. -/
def THTensor.sizeAt {α : Type} (t : THTensor α) (i : Nat) : Except Failure Nat :=
  if i < t.nDimension then .ok (t.size i) else .error .sizeOverrun

/-- The C function `THTensor_(newWithSize3d)`: a fresh 3-D tensor of the given sizes. -/
def THTensor.newWithSize3d {α : Type} [Inhabited α] (s0 s1 s2 : Nat) : THTensor α :=
  { nDimension := 3,
    size := fun i => if i = 0 then s0 else if i = 1 then s1 else if i = 2 then s2 else 0,
    elem := fun _ _ _ => default }

/-- The C function `THTensor_(get3d)`: the element at `(x0, x1, x2)`, after the check
that the tensor is 3-D and the index in range. -/
def THTensor.get3d {α : Type} (t : THTensor α) (x0 x1 x2 : Nat) : Except Failure α :=
  if t.nDimension = 3 ∧ x0 < t.size 0 ∧ x1 < t.size 1 ∧ x2 < t.size 2 then
    .ok (t.elem x0 x1 x2)
  else .error .outOfRange

/-- The C function `THTensor_(set3d)`: store `v` at `(x0, x1, x2)`, after the check
that the tensor is 3-D and the index in range. -/
def THTensor.set3d {α : Type} (t : THTensor α) (x0 x1 x2 : Nat) (v : α) :
    Except Failure (THTensor α) :=
  if t.nDimension = 3 ∧ x0 < t.size 0 ∧ x1 < t.size 1 ∧ x2 < t.size 2 then
    .ok { t with elem := fun a b c => if a = x0 ∧ b = x1 ∧ c = x2 then v else t.elem a b c }
  else .error .outOfRange

/-- A tensor the binding can convert: 3-D, with the three sizes and the element count
within the range of `int`. -/
def THTensor.fitsInt {α : Type} (t : THTensor α) : Prop :=
  t.nDimension = 3 ∧ t.size 0 ≤ INT_MAX ∧ t.size 1 ≤ INT_MAX ∧ t.size 2 ≤ INT_MAX ∧
  t.size 0 * t.size 1 * t.size 2 ≤ INT_MAX

/-! ## Images -/

/-- Modelled from the spec: the class `DImage` of `Image.h`, which is not among the
sources.  "Image: width W, height H, channel count C, backed by W×H×C real values":
three dimensions and a flat buffer of exactly `width * height * nchannels` elements,
the dimensions and the element count being C `int`s. -/
structure DImage (α : Type) where
  width : Nat
  height : Nat
  nchannels : Nat
  data : Array α
  size_eq : data.size = width * height * nchannels
  in_range : width ≤ INT_MAX ∧ height ≤ INT_MAX ∧ nchannels ≤ INT_MAX ∧
    width * height * nchannels ≤ INT_MAX

/-- Modelled from the spec: the constructor `DImage(w, h, c)` on three `int`s, which
allocates the `w * h * c` element buffer.  A negative dimension, or an element count
that the `int` holding it cannot represent, yields no image. -/
def DImage.new {α : Type} [Inhabited α] (w h c : Int) : Except Failure (DImage α) :=
  match w, h, c with
  | .ofNat w, .ofNat h, .ofNat c =>
    if hfit : w ≤ INT_MAX ∧ h ≤ INT_MAX ∧ c ≤ INT_MAX ∧ w * h * c ≤ INT_MAX then
      .ok { width := w, height := h, nchannels := c,
            data := Array.mkArray (w * h * c) default,
            size_eq := Array.size_mkArray _ _,
            in_range := hfit }
    else .error .badAlloc
  | _, _, _ => .error .badAlloc

/-- The assignment `dest[offset] = v` through the pointer `img->data()`. -/
def DImage.write {α : Type} (img : DImage α) (offset : Nat) (v : α) :
    Except Failure (DImage α) :=
  if h : offset < img.data.size then
    .ok { img with data := img.data.set ⟨offset, h⟩ v,
                   size_eq := by rw [Array.size_set]; exact img.size_eq }
  else .error .bufferOverrun

/-- The read `src[offset]` through the pointer `img->data()`. -/
def DImage.read {α : Type} (img : DImage α) (offset : Nat) : Except Failure α :=
  match img.data[offset]? with
  | some v => .ok v
  | none => .error .bufferOverrun

/-! ## The conversion loops -/

/-- The C loop `for (i = 0; i < n; i++) body` with an `int` counter `i`, threading the
state `s`; the increment after iteration `k` must not pass `INT_MAX`. -/
def forLoop {σ : Type} (n : Nat) (body : Nat → σ → Except Failure σ) (s : σ) :
    Except Failure σ :=
  match n with
  | 0 => .ok s
  | k + 1 => do
    let s₁ ← forLoop k body s
    let s₂ ← body k s₁
    if k + 1 ≤ INT_MAX then pure s₂ else throw .intOverflow

/-- The variables the copy loop of `Main_tensor_to_image` updates: the image behind
`dest`, the running `offset`, and (as a record of the run) the offsets written so far,
oldest first. -/
structure ToImageState (α : Type) where
  img : DImage α
  offset : Nat
  written : List Nat

/-- The statement `dest[offset++] = THTensor_(get3d)(tensor, i0, i1, i2);` with the
`int` variable `offset`. -/
def toImageBody {α : Type} (tensor : THTensor α) (i1 i0 i2 : Nat) (st : ToImageState α) :
    Except Failure (ToImageState α) := do
  let v ← tensor.get3d i0 i1 i2
  let img ← st.img.write st.offset v
  if st.offset + 1 ≤ INT_MAX then
    pure { img := img, offset := st.offset + 1, written := st.written ++ [st.offset] }
  else throw .intOverflow

/-- The body of `Main_tensor_to_image` up to its `return`: the three sizes narrowed to
`int`, the allocation, and the three nested loops (`i1` outermost, then `i0`, then
`i2`), whose bounds are the tensor's own sizes. -/
def tensor_to_image_run {α : Type} [Inhabited α] (tensor : THTensor α) :
    Except Failure (ToImageState α) := do
  let size0 ← tensor.sizeAt 0
  let size1 ← tensor.sizeAt 1
  let size2 ← tensor.sizeAt 2
  let w := long_to_int size0
  let h := long_to_int size1
  let c := long_to_int size2
  let img : DImage α ← DImage.new w h c
  forLoop size1 (fun i1 =>
    forLoop size0 (fun i0 =>
      forLoop size2 (fun i2 => toImageBody tensor i1 i0 i2)))
    { img := img, offset := 0, written := [] }

/-- The function `Main_tensor_to_image`. -/
def Main_tensor_to_image {α : Type} [Inhabited α] (tensor : THTensor α) :
    Except Failure (DImage α) :=
  (tensor_to_image_run tensor).map (fun st => st.img)

/-- The variables the copy loop of `Main_image_to_tensor` updates: the output
`tensor`, the running `offset`, and the offsets read so far, oldest first. -/
structure ToTensorState (α : Type) where
  tensor : THTensor α
  offset : Nat
  readAt : List Nat

/-- The statement `THTensor_(set3d)(tensor, i0, i1, i2, src[offset++]);` with the `int`
variable `offset`. -/
def toTensorBody {α : Type} (img : DImage α) (i1 i0 i2 : Nat) (st : ToTensorState α) :
    Except Failure (ToTensorState α) := do
  let v ← img.read st.offset
  let tensor ← st.tensor.set3d i0 i1 i2 v
  if st.offset + 1 ≤ INT_MAX then
    pure { tensor := tensor, offset := st.offset + 1, readAt := st.readAt ++ [st.offset] }
  else throw .intOverflow

/-- The body of `Main_image_to_tensor` up to its `return`; the loop bounds are the
sizes of the freshly created tensor. -/
def image_to_tensor_run {α : Type} [Inhabited α] (img : DImage α) :
    Except Failure (ToTensorState α) := do
  let tensor : THTensor α := THTensor.newWithSize3d img.width img.height img.nchannels
  let size1 ← tensor.sizeAt 1
  let size0 ← tensor.sizeAt 0
  let size2 ← tensor.sizeAt 2
  forLoop size1 (fun i1 =>
    forLoop size0 (fun i0 =>
      forLoop size2 (fun i2 => toTensorBody img i1 i0 i2)))
    { tensor := tensor, offset := 0, readAt := [] }

/-- The function `Main_image_to_tensor`. -/
def Main_image_to_tensor {α : Type} [Inhabited α] (img : DImage α) :
    Except Failure (THTensor α) :=
  (image_to_tensor_run img).map (fun st => st.tensor)

/-! ## The Lua stack (the part of the Lua and luaT interface the binding uses) -/

/-- A value on the Lua stack.  Userdata carry the name of their luaT type. -/
inductive LuaValue (α : Type) where
  | nil
  | boolean (b : Bool)
  | number (x : ℚ)
  | string (s : String)
  | userdata (tname : String) (tensor : THTensor α)

/-- The Lua state of one call of a C function: the stack holds the arguments,
argument `i` at position `i` (counted from 1), and receives the pushed results. -/
structure lua_State (α : Type) where
  stack : List (LuaValue α)

/-- The value at stack index `idx` (from 1), if there is one. -/
def lua_State.index {α : Type} (L : lua_State α) (idx : Nat) : Option (LuaValue α) :=
  if idx = 0 then none else L.stack[idx - 1]?

/-- The Lua function `lua_isnumber`: true for a number and for a string convertible
to a number (`str2d` is Lua's string-to-number conversion), false otherwise, also
for an index beyond the arguments. -/
def lua_isnumber {α : Type} (str2d : String → Option ℚ) (L : lua_State α) (idx : Nat) : Bool :=
  match L.index idx with
  | some (.number _) => true
  | some (.string s) => (str2d s).isSome
  | _ => false

/-- The Lua function `lua_tonumber`: the number, the conversion of a convertible
string, and 0 otherwise. -/
def lua_tonumber {α : Type} (str2d : String → Option ℚ) (L : lua_State α) (idx : Nat) : ℚ :=
  match L.index idx with
  | some (.number x) => x
  | some (.string s) => (str2d s).getD 0
  | _ => 0

/-- The luaT function `luaT_checktypename2id`: type ids are represented by the type name. -/
def luaT_checktypename2id (tname : String) : String := tname

/-- The luaT function `luaT_checkudata`: the userdata at `idx` when it has the type
`id`, a Lua type error for that argument otherwise. -/
def luaT_checkudata {α : Type} (L : lua_State α) (idx : Nat) (id : String) :
    Except Failure (THTensor α) :=
  match L.index idx with
  | some (.userdata tname t) => if tname = id then .ok t else .error (.typerror idx id)
  | _ => .error (.typerror idx id)

/-- The luaT function `luaT_pushudata`: push a userdata of type `id` on top of the stack. -/
def luaT_pushudata {α : Type} (L : lua_State α) (t : THTensor α) (id : String) : lua_State α :=
  { stack := L.stack ++ [.userdata id t] }

/-! ## The engine -/

/-- The two static functions of the class `OpticalFlow` (`OpticalFlow.h`, not among the
sources) that the binding calls, taken as parameters.  `Coarse2FineFlow` returns its
three output images `(vx, vy, warpI2)`, `warpFL` its output image; either may fail. -/
structure OpticalFlow (α : Type) where
  Coarse2FineFlow : DImage α → DImage α → ℚ → ℚ → Int → Int → Int → Int →
    Except EngineError (DImage α × DImage α × DImage α)
  warpFL : DImage α → DImage α → DImage α → DImage α → Except EngineError (DImage α)

/-- A record of one call into the engine, with the arguments in the order of the C call
(outputs omitted). -/
inductive EngineCall (α : Type) where
  | Coarse2FineFlow (Im1 Im2 : DImage α) (alpha ratio : ℚ)
      (minWidth nOuterFPIterations nInnerFPIterations nCGIterations : Int)
  | warpFL (Im1 Im2 vx vy : DImage α)

/-- A run of an entry point: the engine calls it made, in order, and how it ended.  The
calls are kept when the run fails. -/
structure Run (α β : Type) where
  calls : List (EngineCall α)
  result : Except Failure β

/-- A step of the binding that makes no engine call. -/
def Run.lift {α β : Type} (e : Except Failure β) : Run α β :=
  { calls := [], result := e }

/-- Sequencing of runs: the calls of both parts in order; a failed first part ends the run. -/
instance {α : Type} : Monad (Run α) where
  pure x := { calls := [], result := .ok x }
  bind m f :=
    match m.result with
    | .error e => { calls := m.calls, result := .error e }
    | .ok x => { calls := m.calls ++ (f x).calls, result := (f x).result }

/-- The call `OpticalFlow::Coarse2FineFlow(vx, vy, warpI2, Im1, Im2, ...)`: the engine
is applied to the arguments and the call is recorded.  The binding has no handler, so a
failure of the engine is the failure of the run. -/
def OpticalFlow.call_Coarse2FineFlow {α : Type} (E : OpticalFlow α) (Im1 Im2 : DImage α)
    (alpha ratio : ℚ) (minWidth nOuterFPIterations nInnerFPIterations nCGIterations : Int) :
    Run α (DImage α × DImage α × DImage α) :=
  { calls := [.Coarse2FineFlow Im1 Im2 alpha ratio minWidth
                nOuterFPIterations nInnerFPIterations nCGIterations],
    result := (E.Coarse2FineFlow Im1 Im2 alpha ratio minWidth
                nOuterFPIterations nInnerFPIterations nCGIterations).mapError .engine }

/-- The call `OpticalFlow::warpFL(warpIm2, Im1, Im2, vx, vy)`: the engine is applied to
the arguments and the call is recorded.  The binding has no handler, so a failure of the
engine is the failure of the run. -/
def OpticalFlow.call_warpFL {α : Type} (E : OpticalFlow α) (Im1 Im2 vx vy : DImage α) :
    Run α (DImage α) :=
  { calls := [.warpFL Im1 Im2 vx vy],
    result := (E.warpFL Im1 Im2 vx vy).mapError .engine }

/-- What a completed call of an entry point hands to Lua: the Lua state and the number
of results the C function returns. -/
structure Returned (α : Type) where
  L : lua_State α
  nresults : Nat

/-- The values Lua receives from a completed call: the top `nresults` stack entries,
in the order they were pushed. -/
def Returned.results {α : Type} (o : Returned α) : List (LuaValue α) :=
  o.L.stack.drop (o.L.stack.length - o.nresults)

/-! ## The entry points -/

/-- The function `Main_optflow`, registered as `infer`. -/
def Main_optflow {α : Type} [Inhabited α] (E : OpticalFlow α) (str2d : String → Option ℚ)
    (L : lua_State α) : Run α (Returned α) := do
  -- defaults
  let alpha : ℚ := 0.01
  let ratio : ℚ := 0.75
  let minWidth : Int := 30
  let nOuterFPIterations : Int := 15
  let nInnerFPIterations : Int := 1
  let nCGIterations : Int := 40
  -- get args
  let ten1 ← Run.lift (luaT_checkudata L 1 (luaT_checktypename2id "torch.Tensor"))
  let ten2 ← Run.lift (luaT_checkudata L 2 (luaT_checktypename2id "torch.Tensor"))
  let alpha := if lua_isnumber str2d L 3 then lua_tonumber str2d L 3 else alpha
  let ratio := if lua_isnumber str2d L 4 then lua_tonumber str2d L 4 else ratio
  let minWidth :=
    if lua_isnumber str2d L 5 then double_to_int (lua_tonumber str2d L 5) else minWidth
  let nOuterFPIterations :=
    if lua_isnumber str2d L 6 then double_to_int (lua_tonumber str2d L 6)
    else nOuterFPIterations
  let nInnerFPIterations :=
    if lua_isnumber str2d L 7 then double_to_int (lua_tonumber str2d L 7)
    else nInnerFPIterations
  let nCGIterations :=
    if lua_isnumber str2d L 8 then double_to_int (lua_tonumber str2d L 8)
    else nCGIterations
  -- copy tensors to images
  let img1 ← Run.lift (Main_tensor_to_image ten1)
  let img2 ← Run.lift (Main_tensor_to_image ten2)
  -- declare outputs, and process
  let out ← E.call_Coarse2FineFlow img1 img2 alpha ratio minWidth
    nOuterFPIterations nInnerFPIterations nCGIterations
  let vx := out.1
  let vy := out.2.1
  let warpI2 := out.2.2
  -- return result
  let ten_vx ← Run.lift (Main_image_to_tensor vx)
  let ten_vy ← Run.lift (Main_image_to_tensor vy)
  let ten_warp ← Run.lift (Main_image_to_tensor warpI2)
  let L := luaT_pushudata L ten_vx (luaT_checktypename2id "torch.Tensor")
  let L := luaT_pushudata L ten_vy (luaT_checktypename2id "torch.Tensor")
  let L := luaT_pushudata L ten_warp (luaT_checktypename2id "torch.Tensor")
  pure { L := L, nresults := 3 }

/-- The function `Main_warp`, registered as `warp`. -/
def Main_warp {α : Type} [Inhabited α] (E : OpticalFlow α) (L : lua_State α) :
    Run α (Returned α) := do
  -- get args
  let ten_inp ← Run.lift (luaT_checkudata L 1 (luaT_checktypename2id "torch.Tensor"))
  let ten_vx ← Run.lift (luaT_checkudata L 2 (luaT_checktypename2id "torch.Tensor"))
  let ten_vy ← Run.lift (luaT_checkudata L 3 (luaT_checktypename2id "torch.Tensor"))
  -- copy tensors to images
  let input ← Run.lift (Main_tensor_to_image ten_inp)
  let vx ← Run.lift (Main_tensor_to_image ten_vx)
  let vy ← Run.lift (Main_tensor_to_image ten_vy)
  -- declare outputs, and process
  let warpedInput ← E.call_warpFL input input vx vy
  -- return result
  let ten_warp ← Run.lift (Main_image_to_tensor warpedInput)
  let L := luaT_pushudata L ten_warp (luaT_checktypename2id "torch.Tensor")
  pure { L := L, nresults := 1 }

/-! ## Loop invariants of the two conversions -/

/-- What holds in `Main_tensor_to_image` after `p` executions of the copy statement. -/
def ToImageInv {α : Type} (t : THTensor α) (p : Nat) (st : ToImageState α) : Prop :=
  st.offset = p ∧ st.written = List.range p ∧
  st.img.width = t.size 0 ∧ st.img.height = t.size 1 ∧ st.img.nchannels = t.size 2 ∧
  ∀ x y k, x < t.size 0 → y < t.size 1 → k < t.size 2 →
    (y * t.size 0 + x) * t.size 2 + k < p →
    st.img.data[(y * t.size 0 + x) * t.size 2 + k]? = some (t.elem x y k)

/-- What holds in `Main_image_to_tensor` after `p` executions of the copy statement. -/
def ToTensorInv {α : Type} (img : DImage α) (p : Nat) (st : ToTensorState α) : Prop :=
  st.offset = p ∧ st.readAt = List.range p ∧ st.tensor.nDimension = 3 ∧
  st.tensor.size 0 = img.width ∧ st.tensor.size 1 = img.height ∧
  st.tensor.size 2 = img.nchannels ∧
  ∀ x y k, x < img.width → y < img.height → k < img.nchannels →
    (y * img.width + x) * img.nchannels + k < p →
    img.data[(y * img.width + x) * img.nchannels + k]? = some (st.tensor.elem x y k)

/-! ## Sample inputs -/

/-- A 3-D tensor of the given sizes with distinct elements. -/
def sampleTensor (s0 s1 s2 : Nat) : THTensor ℚ :=
  { nDimension := 3,
    size := fun i => if i = 0 then s0 else if i = 1 then s1 else if i = 2 then s2 else 0,
    elem := fun x y k => (x : ℚ) + 10 * y + 100 * k }

/-- A 2×1×2 image. -/
def sampleImage : DImage ℚ :=
  { width := 2, height := 1, nchannels := 2, data := #[1, 2, 3, 4],
    size_eq := rfl, in_range := by decide }

/-- A `torch.Tensor` argument on the Lua stack. -/
def tensorArg (s0 s1 s2 : Nat) : LuaValue ℚ :=
  .userdata "torch.Tensor" (sampleTensor s0 s1 s2)

/-- An engine that accepts everything and hands its input images back. -/
def permissiveEngine : OpticalFlow ℚ :=
  { Coarse2FineFlow := fun Im1 Im2 _ _ _ _ _ _ => .ok (Im1, Im2, Im2),
    warpFL := fun _ Im2 _ _ => .ok Im2 }

/-- An engine that validates its arguments the way section 7 of the specification
describes (`InvalidInput` on mismatched dimensions, `InvalidParameter` on a
non-positive `alpha` or `minWidth` or a `ratio` outside (0,1)) and otherwise hands its
input images back. -/
def checkingEngine : OpticalFlow ℚ :=
  { Coarse2FineFlow := fun Im1 Im2 alpha ratio minWidth _ _ _ =>
      if Im1.width ≠ Im2.width ∨ Im1.height ≠ Im2.height ∨ Im1.nchannels ≠ Im2.nchannels then
        .error .InvalidInput
      else if alpha ≤ 0 ∨ ratio ≤ 0 ∨ 1 ≤ ratio ∨ minWidth ≤ 0 then
        .error .InvalidParameter
      else .ok (Im1, Im2, Im2),
    warpFL := fun _ Im2 vx vy =>
      if vx.width ≠ Im2.width ∨ vx.height ≠ Im2.height ∨
         vy.width ≠ Im2.width ∨ vy.height ≠ Im2.height then
        .error .InvalidInput
      else .ok Im2 }

/-- A string conversion that knows the numeral `"20"`. -/
def sampleStr2d (s : String) : Option ℚ :=
  if s = "20" then some 20 else none

/-- The call `infer(t1, t2)` with two 2×2×1 tensors and nothing else. -/
def inferTwoTensors : lua_State ℚ :=
  { stack := [tensorArg 2 2 1, tensorArg 2 2 1] }

/-- The call `infer(t1, t2)` with a 4294967296×1×1 and a 1×1×1 tensor. -/
def inferHuge : lua_State ℚ :=
  { stack := [tensorArg 4294967296 1 1, tensorArg 1 1 1] }

/-- The call `infer(t1, t2)` with a 1×1×1 and a 2×1×1 tensor. -/
def inferMismatched : lua_State ℚ :=
  { stack := [tensorArg 1 1 1, tensorArg 2 1 1] }

/-- The call `infer(t1, t2)` with a 2×3×1 and a 3×2×2 tensor. -/
def inferMismatchedAll : lua_State ℚ :=
  { stack := [tensorArg 2 3 1, tensorArg 3 2 2] }

/-- The call `infer(t1, t2, -1, 2, -5)`. -/
def inferBadParams : lua_State ℚ :=
  { stack := [tensorArg 1 1 1, tensorArg 1 1 1, .number (-1), .number 2, .number (-5)] }

/-- The call `infer(t1, t2, 0, 1, 0)`. -/
def inferEdgeParams : lua_State ℚ :=
  { stack := [tensorArg 1 1 1, tensorArg 1 1 1, .number 0, .number 1, .number 0] }

/-- The call `infer(t1, t2, 0.5, nil, "20", 0, 2.7)`. -/
def inferOverrides : lua_State ℚ :=
  { stack := [tensorArg 2 1 1, tensorArg 2 1 1, .number 0.5, .nil, .string "20",
              .number 0, .number 2.7] }

/-- The call `infer(t1, t2, 0.25, 0.5, 10000000000)`. -/
def inferHugeMinWidth : lua_State ℚ :=
  { stack := [tensorArg 1 1 1, tensorArg 1 1 1, .number 0.25, .number 0.5,
              .number 10000000000] }

/-- The call `infer(t1, t2, 0.5)` with a 4294967297×1×1 and a 1×1×1 tensor. -/
def inferHugeOverride : lua_State ℚ :=
  { stack := [tensorArg 4294967297 1 1, tensorArg 1 1 1, .number 0.5] }

/-- The call `infer(t1, t2, 0.02)` with two 1×2×3 tensors. -/
def inferAlphaOnly : lua_State ℚ :=
  { stack := [tensorArg 1 2 3, tensorArg 1 2 3, .number 0.02] }

/-- The call `warp(img, vx, vy)` with a 2×2×1 image and flows of sizes 1×1×1 and 3×1×1. -/
def warpMismatched : lua_State ℚ :=
  { stack := [tensorArg 2 2 1, tensorArg 1 1 1, tensorArg 3 1 1] }

/-- The call `warp(img, vx, vy)` with a 2×2×1 image and flows of sizes 2×1×1 and 1×2×1. -/
def warpMismatchedFlows : lua_State ℚ :=
  { stack := [tensorArg 2 2 1, tensorArg 2 1 1, tensorArg 1 2 1] }

/-- The call `warp(img, vx, vy)` with a 2×2×3 image and two 2×2×1 flows. -/
def warpMatched : lua_State ℚ :=
  { stack := [tensorArg 2 2 3, tensorArg 2 2 1, tensorArg 2 2 1] }

/-- The call `warp(img, vx, vy)` with a 4294967298×1×1 image and two 1×1×1 flows. -/
def warpHuge : lua_State ℚ :=
  { stack := [tensorArg 4294967298 1 1, tensorArg 1 1 1, tensorArg 1 1 1] }

/-- The call `warp(img, vx, vy)` with a 3×1×1 image and two 1×1×1 flows. -/
def warpShortFlows : lua_State ℚ :=
  { stack := [tensorArg 3 1 1, tensorArg 1 1 1, tensorArg 1 1 1] }

/-! ## Machine integer facts -/

/-- A `long` within the range of `int` is unchanged by the narrowing. -/
theorem long_to_int_of_le {n : Nat} (h : n ≤ INT_MAX) : long_to_int n = Int.ofNat n := by
  have hlt : n < 4294967296 := by unfold INT_MAX at h; omega
  unfold long_to_int
  rw [Nat.mod_eq_of_lt hlt, if_pos h]

/-- The conversion to `int` always lands in the range of `int`. -/
theorem double_to_int_range (x : ℚ) :
    INT_MIN ≤ double_to_int x ∧ double_to_int x ≤ (INT_MAX : Int) := by
  unfold double_to_int
  split
  · assumption
  · unfold INT_MIN INT_MAX
    constructor <;> norm_num

/-- Inside the range of `int` the conversion is the truncation toward zero. -/
theorem double_to_int_trunc (x : ℚ)
    (h : INT_MIN ≤ truncToZero x ∧ truncToZero x ≤ (INT_MAX : Int)) :
    double_to_int x = truncToZero x := by
  have key : Int.tdiv x.num x.den = truncToZero x := by
    unfold truncToZero
    by_cases hx : 0 ≤ x
    · rw [if_pos hx, Rat.floor_def]
      exact Int.tdiv_eq_ediv (Rat.num_nonneg.mpr hx) (Int.ofNat_nonneg _)
    · rw [if_neg hx]
      have hneg : 0 ≤ -x := by linarith
      have h1 : ⌈x⌉ = -⌊-x⌋ := by rw [← Int.ceil_neg, neg_neg]
      rw [h1, Rat.floor_def, Rat.neg_num, Rat.neg_den]
      have h2 := Int.tdiv_eq_ediv (a := -x.num) (b := (x.den : Int))
        (by have := Rat.num_nonneg.mpr hneg; simpa using this) (Int.ofNat_nonneg _)
      rw [← h2, Int.neg_tdiv, neg_neg]
  unfold double_to_int
  rw [key, if_pos h]

/-- Outside the range of `int` the conversion gives `INT_MIN`. -/
theorem double_to_int_out_of_range (x : ℚ)
    (h : ¬ (INT_MIN ≤ truncToZero x ∧ truncToZero x ≤ (INT_MAX : Int))) :
    double_to_int x = INT_MIN := by
  have key : Int.tdiv x.num x.den = truncToZero x := by
    unfold truncToZero
    by_cases hx : 0 ≤ x
    · rw [if_pos hx, Rat.floor_def]
      exact Int.tdiv_eq_ediv (Rat.num_nonneg.mpr hx) (Int.ofNat_nonneg _)
    · rw [if_neg hx]
      have hneg : 0 ≤ -x := by linarith
      have h1 : ⌈x⌉ = -⌊-x⌋ := by rw [← Int.ceil_neg, neg_neg]
      rw [h1, Rat.floor_def, Rat.neg_num, Rat.neg_den]
      have h2 := Int.tdiv_eq_ediv (a := -x.num) (b := (x.den : Int))
        (by have := Rat.num_nonneg.mpr hneg; simpa using this) (Int.ofNat_nonneg _)
      rw [← h2, Int.neg_tdiv, neg_neg]
  unfold double_to_int
  rw [key, if_neg h]

/-- The truncation of an integer is the integer. -/
theorem truncToZero_intCast (n : Int) : truncToZero (n : ℚ) = n := by
  unfold truncToZero
  split <;> simp

/-- The conversion to `int` leaves an integer within the range of `int` unchanged. -/
theorem double_to_int_intCast (n : Int) (h : INT_MIN ≤ n ∧ n ≤ (INT_MAX : Int)) :
    double_to_int (n : ℚ) = n := by
  unfold double_to_int
  simp only [Rat.intCast_num, Rat.intCast_den, Nat.cast_one, Int.tdiv_one]
  rw [if_pos h]

/-- The constructor succeeds on dimensions whose product is within the range of `int`. -/
theorem DImage.new_ok {α : Type} [Inhabited α] (w h c : Nat)
    (hfit : w ≤ INT_MAX ∧ h ≤ INT_MAX ∧ c ≤ INT_MAX ∧ w * h * c ≤ INT_MAX) :
    ∃ img : DImage α, DImage.new (Int.ofNat w) (Int.ofNat h) (Int.ofNat c) = .ok img ∧
      img.width = w ∧ img.height = h ∧ img.nchannels = c := by
  refine ⟨{ width := w, height := h, nchannels := c,
            data := Array.mkArray (w * h * c) default,
            size_eq := Array.size_mkArray _ _, in_range := hfit }, ?_, rfl, rfl, rfl⟩
  simp only [DImage.new, hfit, and_self, dite_true]

/-! ## Loop reasoning -/

/-- One more iteration of a loop: the earlier iterations, the body, the increment. -/
theorem forLoop_succ {σ : Type} (k : Nat) (body : Nat → σ → Except Failure σ) (s : σ) :
    forLoop (k + 1) body s =
      (forLoop k body s >>= fun s₁ => body k s₁ >>= fun s₂ =>
        if k + 1 ≤ INT_MAX then pure s₂ else throw .intOverflow) := rfl

/-- A loop that has failed after `k` iterations has failed after any larger number. -/
theorem forLoop_fail {σ : Type} (body : Nat → σ → Except Failure σ) (s : σ) (e : Failure)
    (k n : Nat) (hk : forLoop k body s = .error e) (hkn : k ≤ n) :
    forLoop n body s = .error e := by
  induction n with
  | zero =>
    have : k = 0 := Nat.le_zero.mp hkn
    subst this
    exact hk
  | succ m ih =>
    by_cases hkm : k ≤ m
    · rw [forLoop_succ, ih hkm]
      rfl
    · have : k = m + 1 := by omega
      subst this
      exact hk

/-- A loop whose next body fails, fails. -/
theorem forLoop_body_fail {σ : Type} (body : Nat → σ → Except Failure σ) (s s₁ : σ)
    (e : Failure) (k : Nat) (hk : forLoop k body s = .ok s₁) (hb : body k s₁ = .error e) :
    forLoop (k + 1) body s = .error e := by
  rw [forLoop_succ, hk]
  show (body k s₁ >>= _) = _
  rw [hb]
  rfl

/-- Invariant rule for `forLoop`: with a bound within the range of `int`, an invariant
that holds on entry and is carried by every iteration (which must succeed) holds on
exit, and the loop succeeds. -/
theorem forLoop_inv {σ : Type} (Inv : Nat → σ → Prop) (n : Nat) (hn : n ≤ INT_MAX)
    (body : Nat → σ → Except Failure σ) (s : σ) (h0 : Inv 0 s)
    (hstep : ∀ i, i < n → ∀ st, Inv i st → ∃ st', body i st = .ok st' ∧ Inv (i + 1) st') :
    ∃ s', forLoop n body s = .ok s' ∧ Inv n s' := by
  induction n with
  | zero => exact ⟨s, rfl, h0⟩
  | succ k ih =>
    obtain ⟨s₁, hs₁, hinv₁⟩ := ih (Nat.le_of_succ_le hn)
      (fun i hi => hstep i (Nat.lt_succ_of_lt hi))
    obtain ⟨s₂, hs₂, hinv₂⟩ := hstep k (Nat.lt_succ_self k) s₁ hinv₁
    refine ⟨s₂, ?_, hinv₂⟩
    rw [forLoop_succ, hs₁]
    show (body k s₁ >>= _) = _
    rw [hs₂]
    show (if k + 1 ≤ INT_MAX then pure s₂ else throw Failure.intOverflow) = _
    rw [if_pos hn]
    rfl

/-- Invariant rule for the loop nest of the two conversions: `P p` is what holds after
`p` executions of the innermost statement; iteration `(i1, i0, i2)` is execution number
`(i1 * w + i0) * c + i2`. -/
theorem forLoop3_inv {σ : Type} (w h c : Nat) (hw : w ≤ INT_MAX) (hh : h ≤ INT_MAX)
    (hc : c ≤ INT_MAX) (body : Nat → Nat → Nat → σ → Except Failure σ)
    (P : Nat → σ → Prop) (s : σ) (h0 : P 0 s)
    (hstep : ∀ i1, i1 < h → ∀ i0, i0 < w → ∀ i2, i2 < c → ∀ st,
      P ((i1 * w + i0) * c + i2) st →
        ∃ st', body i1 i0 i2 st = .ok st' ∧ P ((i1 * w + i0) * c + i2 + 1) st') :
    ∃ s', forLoop h (fun i1 => forLoop w (fun i0 => forLoop c (body i1 i0))) s = .ok s'
      ∧ P (h * w * c) s' := by
  have key := forLoop_inv (fun i1 st => P (i1 * w * c) st) h hh
    (fun i1 => forLoop w (fun i0 => forLoop c (body i1 i0))) s (by simpa using h0) ?_
  · exact key
  intro i1 hi1 st hst
  have mid := forLoop_inv (fun i0 st => P ((i1 * w + i0) * c) st) w hw
    (fun i0 => forLoop c (body i1 i0)) st (by simpa using hst) ?_
  · obtain ⟨st', h1, h2⟩ := mid
    refine ⟨st', h1, ?_⟩
    have e : (i1 + 1) * w * c = (i1 * w + w) * c := by ring
    show P ((i1 + 1) * w * c) st'
    rw [e]; exact h2
  intro i0 hi0 st hst
  have inner := forLoop_inv (fun i2 st => P ((i1 * w + i0) * c + i2) st) c hc
    (body i1 i0) st (by simpa using hst) (fun i2 hi2 st hst => hstep i1 hi1 i0 hi0 i2 hi2 st hst)
  obtain ⟨st', h1, h2⟩ := inner
  refine ⟨st', h1, ?_⟩
  have e : (i1 * w + (i0 + 1)) * c = (i1 * w + i0) * c + c := by ring
  show P ((i1 * w + (i0 + 1)) * c) st'
  rw [e]; exact h2

/-! ## Offset arithmetic -/

/-- The offset of an in-range index triple lies inside a `w * h * c` buffer. -/
theorem offset_lt {w h c x y k : Nat} (hx : x < w) (hy : y < h) (hk : k < c) :
    (y * w + x) * c + k < w * h * c := by
  have h1 : y * w + x + 1 ≤ h * w := by
    have : (y + 1) * w ≤ h * w := Nat.mul_le_mul_right w hy
    nlinarith
  have h2 : (y * w + x + 1) * c ≤ h * w * c := Nat.mul_le_mul_right c h1
  have h3 : w * h * c = h * w * c := by ring
  rw [h3]
  nlinarith

/-- The channel index is recovered from the offset. -/
theorem offset_mod {w c x y k : Nat} (hk : k < c) : ((y * w + x) * c + k) % c = k := by
  rw [Nat.add_comm, Nat.add_mul_mod_self_right, Nat.mod_eq_of_lt hk]

/-- The pixel number is recovered from the offset. -/
theorem offset_div {w c x y k : Nat} (hk : k < c) : ((y * w + x) * c + k) / c = y * w + x := by
  have hc : 0 < c := Nat.lt_of_le_of_lt (Nat.zero_le k) hk
  rw [Nat.add_comm, Nat.add_mul_div_right _ _ hc, Nat.div_eq_of_lt hk, Nat.zero_add]

/-- Distinct in-range index triples have distinct offsets. -/
theorem offset_inj {w c x y k x' y' k' : Nat} (hx : x < w) (hk : k < c) (hx' : x' < w)
    (hk' : k' < c) (h : (y * w + x) * c + k = (y' * w + x') * c + k') :
    x = x' ∧ y = y' ∧ k = k' := by
  have hkk : k = k' := by
    have := congrArg (· % c) h
    simpa [offset_mod hk, offset_mod hk'] using this
  have hp : y * w + x = y' * w + x' := by
    have := congrArg (· / c) h
    simpa [offset_div hk, offset_div hk'] using this
  have hxx : x = x' := by
    have := congrArg (· % w) hp
    simpa [Nat.add_comm, Nat.add_mul_mod_self_right, Nat.mod_eq_of_lt hx,
      Nat.mod_eq_of_lt hx'] using this
  have hw : 0 < w := Nat.lt_of_le_of_lt (Nat.zero_le x) hx
  have hyy : y = y' := by
    subst hxx
    have : y * w = y' * w := by omega
    exact Nat.eq_of_mul_eq_mul_right hw this
  exact ⟨hxx, hyy, hkk⟩

/-! ## The conversions run to completion on what fits in `int` -/

/-- One execution of the copy statement of `Main_tensor_to_image` succeeds and carries
the invariant one step on. -/
theorem toImageBody_step {α : Type} (t : THTensor α) (h3 : t.nDimension = 3)
    (i1 i0 i2 : Nat) (hi1 : i1 < t.size 1)
    (hi0 : i0 < t.size 0) (hi2 : i2 < t.size 2) (st : ToImageState α)
    (hst : ToImageInv t ((i1 * t.size 0 + i0) * t.size 2 + i2) st) :
    ∃ st', toImageBody t i1 i0 i2 st = .ok st' ∧
      ToImageInv t ((i1 * t.size 0 + i0) * t.size 2 + i2 + 1) st' := by
  obtain ⟨hoff, hwr, hw, hh, hc, hdata⟩ := hst
  have hlt : st.offset < st.img.data.size := by
    rw [st.img.size_eq, hw, hh, hc, hoff]
    exact offset_lt hi0 hi1 hi2
  have hmax : st.offset + 1 ≤ INT_MAX := by
    have h1 := st.img.in_range.2.2.2
    have h2 := st.img.size_eq
    omega
  have hget : t.get3d i0 i1 i2 = .ok (t.elem i0 i1 i2) := by
    simp [THTensor.get3d, h3, hi0, hi1, hi2]
  refine ⟨{ img := { st.img with data := st.img.data.set ⟨st.offset, hlt⟩ (t.elem i0 i1 i2),
                                 size_eq := by rw [Array.size_set]; exact st.img.size_eq },
            offset := st.offset + 1, written := st.written ++ [st.offset] }, ?_, ?_⟩
  · simp only [toImageBody, hget, DImage.write, hlt, dite_true, hmax, if_true]
    rfl
  · refine ⟨by simp [hoff], by simp [hwr, hoff, List.range_succ], hw, hh, hc, ?_⟩
    intro x y k hx hy hk hp
    show (st.img.data.set ⟨st.offset, hlt⟩ (t.elem i0 i1 i2))[_]? = _
    by_cases heq : (y * t.size 0 + x) * t.size 2 + k = (i1 * t.size 0 + i0) * t.size 2 + i2
    · obtain ⟨rfl, rfl, rfl⟩ := offset_inj hx hk hi0 hi2 heq
      have := Array.getElem?_set_eq st.img.data ⟨st.offset, hlt⟩ (t.elem x y k)
      simpa [hoff] using this
    · have hne : st.offset ≠ (y * t.size 0 + x) * t.size 2 + k := by
        rw [hoff]; exact fun h => heq h.symm
      rw [Array.getElem?_set_ne st.img.data ⟨st.offset, hlt⟩ _ hne]
      exact hdata x y k hx hy hk (by omega)

/-- On a 3-D tensor whose sizes and element count fit in `int`, the loop nest of
`Main_tensor_to_image` runs to completion, and on exit every tensor element has been
stored at its offset, with `size0 * size1 * size2` writes at the offsets `0, 1, 2, ...`
in this order. -/
theorem tensor_to_image_run_spec {α : Type} [Inhabited α] (t : THTensor α)
    (ht : t.fitsInt) :
    ∃ st, tensor_to_image_run t = .ok st ∧
      ToImageInv t (t.size 1 * t.size 0 * t.size 2) st := by
  obtain ⟨h3, h0, h1, h2, hprod⟩ := ht
  obtain ⟨img, himg, hw, hh, hc⟩ :=
    @DImage.new_ok α _ (t.size 0) (t.size 1) (t.size 2) ⟨h0, h1, h2, hprod⟩
  have hrun : tensor_to_image_run t =
      forLoop (t.size 1) (fun i1 => forLoop (t.size 0) (fun i0 =>
        forLoop (t.size 2) (fun i2 => toImageBody t i1 i0 i2)))
        { img := img, offset := 0, written := [] } := by
    have e0 : t.sizeAt 0 = .ok (t.size 0) := by simp [THTensor.sizeAt, h3]
    have e1 : t.sizeAt 1 = .ok (t.size 1) := by simp [THTensor.sizeAt, h3]
    have e2 : t.sizeAt 2 = .ok (t.size 2) := by simp [THTensor.sizeAt, h3]
    simp only [tensor_to_image_run, e0, e1, e2]
    show (DImage.new (long_to_int (t.size 0)) (long_to_int (t.size 1))
      (long_to_int (t.size 2)) >>= _) = _
    rw [long_to_int_of_le h0, long_to_int_of_le h1, long_to_int_of_le h2, himg]
    rfl
  rw [hrun]
  apply forLoop3_inv (t.size 0) (t.size 1) (t.size 2) h0 h1 h2
    (fun i1 i0 i2 => toImageBody t i1 i0 i2) (ToImageInv t)
  · exact ⟨rfl, rfl, hw, hh, hc, fun _ _ _ _ _ _ h => absurd h (Nat.not_lt_zero _)⟩
  · intro i1 hi1 i0 hi0 i2 hi2 st hst
    exact toImageBody_step t h3 i1 i0 i2 hi1 hi0 hi2 st hst

/-- One execution of the copy statement of `Main_image_to_tensor` succeeds and carries
the invariant one step on. -/
theorem toTensorBody_step {α : Type} (img : DImage α) (i1 i0 i2 : Nat) (hi1 : i1 < img.height)
    (hi0 : i0 < img.width) (hi2 : i2 < img.nchannels) (st : ToTensorState α)
    (hst : ToTensorInv img ((i1 * img.width + i0) * img.nchannels + i2) st) :
    ∃ st', toTensorBody img i1 i0 i2 st = .ok st' ∧
      ToTensorInv img ((i1 * img.width + i0) * img.nchannels + i2 + 1) st' := by
  obtain ⟨hoff, hrd, hd, hs0, hs1, hs2, hdata⟩ := hst
  have hlt : st.offset < img.data.size := by
    rw [img.size_eq, hoff]
    exact offset_lt hi0 hi1 hi2
  have hmax : st.offset + 1 ≤ INT_MAX := by
    have h1 := img.in_range.2.2.2
    have h2 := img.size_eq
    omega
  have hread : img.read st.offset = .ok (img.data[st.offset]) := by
    simp [DImage.read, Array.getElem?_eq_getElem hlt]
  have hrange : st.tensor.nDimension = 3 ∧ i0 < st.tensor.size 0 ∧ i1 < st.tensor.size 1 ∧
      i2 < st.tensor.size 2 := by
    rw [hs0, hs1, hs2]; exact ⟨hd, hi0, hi1, hi2⟩
  refine ⟨{ tensor := { st.tensor with elem := fun a b c =>
                if a = i0 ∧ b = i1 ∧ c = i2 then img.data[st.offset] else st.tensor.elem a b c },
            offset := st.offset + 1, readAt := st.readAt ++ [st.offset] }, ?_, ?_⟩
  · simp only [toTensorBody, hread, THTensor.set3d, hrange, and_self, if_true, hmax]
    rfl
  · refine ⟨by simp [hoff], by simp [hrd, hoff, List.range_succ], hd, hs0, hs1, hs2, ?_⟩
    intro x y k hx hy hk hp
    show _ = some (if x = i0 ∧ y = i1 ∧ k = i2 then img.data[st.offset] else st.tensor.elem x y k)
    by_cases heq : x = i0 ∧ y = i1 ∧ k = i2
    · obtain ⟨rfl, rfl, rfl⟩ := heq
      simp only [and_self, if_true]
      rw [← hoff]
      exact Array.getElem?_eq_getElem hlt
    · rw [if_neg heq]
      apply hdata x y k hx hy hk
      have hne : (y * img.width + x) * img.nchannels + k
          ≠ (i1 * img.width + i0) * img.nchannels + i2 :=
        fun h => heq (offset_inj hx hk hi0 hi2 h)
      omega

/-- The loop nest of `Main_image_to_tensor` runs to completion, and on exit every
tensor element has been read from its offset, with `width * height * nchannels` reads
at the offsets `0, 1, 2, ...` in this order. -/
theorem image_to_tensor_run_spec {α : Type} [Inhabited α] (img : DImage α) :
    ∃ st, image_to_tensor_run img = .ok st ∧
      ToTensorInv img (img.height * img.width * img.nchannels) st := by
  have hrun : image_to_tensor_run img =
      forLoop img.height (fun i1 => forLoop img.width (fun i0 =>
        forLoop img.nchannels (fun i2 => toTensorBody img i1 i0 i2)))
        { tensor := THTensor.newWithSize3d img.width img.height img.nchannels,
          offset := 0, readAt := [] } := by
    rfl
  rw [hrun]
  obtain ⟨hw, hh, hc, -⟩ := img.in_range
  apply forLoop3_inv img.width img.height img.nchannels hw hh hc
    (fun i1 i0 i2 => toTensorBody img i1 i0 i2) (ToTensorInv img)
  · exact ⟨rfl, rfl, rfl, rfl, rfl, rfl, fun _ _ _ _ _ _ h => absurd h (Nat.not_lt_zero _)⟩
  · intro i1 hi1 i0 hi0 i2 hi2 st hst
    exact toTensorBody_step img i1 i0 i2 hi1 hi0 hi2 st hst

/-- The start of `Main_tensor_to_image` on a 3-D tensor whose narrowed sizes the
constructor accepts: what remains is the loop nest on the allocated image. -/
theorem tensor_to_image_run_loops {α : Type} [Inhabited α] (t : THTensor α)
    (h3 : t.nDimension = 3) (img : DImage α)
    (himg : DImage.new (long_to_int (t.size 0)) (long_to_int (t.size 1))
      (long_to_int (t.size 2)) = .ok img) :
    tensor_to_image_run t =
      forLoop (t.size 1) (fun i1 => forLoop (t.size 0) (fun i0 =>
        forLoop (t.size 2) (fun i2 => toImageBody t i1 i0 i2)))
        { img := img, offset := 0, written := [] } := by
  have e0 : t.sizeAt 0 = .ok (t.size 0) := by simp [THTensor.sizeAt, h3]
  have e1 : t.sizeAt 1 = .ok (t.size 1) := by simp [THTensor.sizeAt, h3]
  have e2 : t.sizeAt 2 = .ok (t.size 2) := by simp [THTensor.sizeAt, h3]
  simp only [tensor_to_image_run, e0, e1, e2]
  show (DImage.new (long_to_int (t.size 0)) (long_to_int (t.size 1))
    (long_to_int (t.size 2)) >>= _) = _
  rw [himg]
  rfl

/-- The start of `Main_tensor_to_image` on a 3-D tensor whose narrowed sizes the
constructor refuses: the run ends there. -/
theorem tensor_to_image_run_alloc_fail {α : Type} [Inhabited α] (t : THTensor α)
    (h3 : t.nDimension = 3) (e : Failure)
    (himg : (DImage.new (long_to_int (t.size 0)) (long_to_int (t.size 1))
      (long_to_int (t.size 2)) : Except Failure (DImage α)) = .error e) :
    tensor_to_image_run t = .error e := by
  have e0 : t.sizeAt 0 = .ok (t.size 0) := by simp [THTensor.sizeAt, h3]
  have e1 : t.sizeAt 1 = .ok (t.size 1) := by simp [THTensor.sizeAt, h3]
  have e2 : t.sizeAt 2 = .ok (t.size 2) := by simp [THTensor.sizeAt, h3]
  simp only [tensor_to_image_run, e0, e1, e2]
  show (DImage.new (long_to_int (t.size 0)) (long_to_int (t.size 1))
    (long_to_int (t.size 2)) >>= _) = _
  rw [himg]
  rfl

/-- On the sample tensor of sizes (4294967296, 1, 1) the width narrows to 0, the image
has no elements, and the first write of `Main_tensor_to_image` leaves the buffer. -/
theorem Main_tensor_to_image_wide0 :
    Main_tensor_to_image (sampleTensor 4294967296 1 1) = .error .bufferOverrun := by
  have hnew : (DImage.new (long_to_int ((sampleTensor 4294967296 1 1).size 0))
      (long_to_int ((sampleTensor 4294967296 1 1).size 1))
      (long_to_int ((sampleTensor 4294967296 1 1).size 2)) : Except Failure (DImage ℚ))
      = .ok { width := 0, height := 1, nchannels := 1, data := #[],
              size_eq := rfl, in_range := by decide } := rfl
  have hrun : tensor_to_image_run (sampleTensor 4294967296 1 1) = .error .bufferOverrun := by
    rw [tensor_to_image_run_loops _ rfl _ hnew]
    refine forLoop_body_fail _ _ _ _ 0 rfl ?_
    exact forLoop_fail _ _ _ 1 _ rfl (by decide)
  simp only [Main_tensor_to_image, hrun]
  rfl

/-- On the sample tensor of sizes (4294967297, 1, 1) the width narrows to 1, the image
has one element, and the second write of `Main_tensor_to_image` leaves the buffer. -/
theorem Main_tensor_to_image_wide1 :
    Main_tensor_to_image (sampleTensor 4294967297 1 1) = .error .bufferOverrun := by
  have hnew : (DImage.new (long_to_int ((sampleTensor 4294967297 1 1).size 0))
      (long_to_int ((sampleTensor 4294967297 1 1).size 1))
      (long_to_int ((sampleTensor 4294967297 1 1).size 2)) : Except Failure (DImage ℚ))
      = .ok { width := 1, height := 1, nchannels := 1, data := #[default],
              size_eq := rfl, in_range := by decide } := rfl
  have hrun : tensor_to_image_run (sampleTensor 4294967297 1 1) = .error .bufferOverrun := by
    rw [tensor_to_image_run_loops _ rfl _ hnew]
    refine forLoop_body_fail _ _ _ _ 0 rfl ?_
    exact forLoop_fail _ _ _ 2 _ rfl (by decide)
  simp only [Main_tensor_to_image, hrun]
  rfl

/-- On the sample tensor of sizes (4294967298, 1, 1) the width narrows to 2, the image
has two elements, and the third write of the copy loop leaves the buffer. -/
theorem tensor_to_image_run_wide2 :
    tensor_to_image_run (sampleTensor 4294967298 1 1) = .error .bufferOverrun := by
  have hnew : (DImage.new (long_to_int ((sampleTensor 4294967298 1 1).size 0))
      (long_to_int ((sampleTensor 4294967298 1 1).size 1))
      (long_to_int ((sampleTensor 4294967298 1 1).size 2)) : Except Failure (DImage ℚ))
      = .ok { width := 2, height := 1, nchannels := 1, data := #[default, default],
              size_eq := rfl, in_range := by decide } := rfl
  rw [tensor_to_image_run_loops _ rfl _ hnew]
  refine forLoop_body_fail _ _ _ _ 0 rfl ?_
  exact forLoop_fail _ _ _ 3 _ rfl (by decide)

/-! ## Layout and round trip of the conversions -/

/-- On a 3-D tensor whose sizes and element count fit in `int`, `Main_tensor_to_image`
returns an image of the tensor's sizes in which every in-range element sits at its
offset. -/
theorem Main_tensor_to_image_ok {α : Type} [Inhabited α] (t : THTensor α) (ht : t.fitsInt) :
    ∃ img, Main_tensor_to_image t = .ok img ∧
      img.width = t.size 0 ∧ img.height = t.size 1 ∧ img.nchannels = t.size 2 ∧
      ∀ x y k, x < t.size 0 → y < t.size 1 → k < t.size 2 →
        img.data[(y * t.size 0 + x) * t.size 2 + k]? = some (t.elem x y k) := by
  obtain ⟨st, hrun, -, -, hw, hh, hc, hdata⟩ := tensor_to_image_run_spec t ht
  refine ⟨st.img, ?_, hw, hh, hc, ?_⟩
  · simp [Main_tensor_to_image, hrun, Except.map]
  · intro x y k hx hy hk
    apply hdata x y k hx hy hk
    have := @offset_lt (t.size 0) (t.size 1) (t.size 2) x y k hx hy hk
    have e : t.size 1 * t.size 0 * t.size 2 = t.size 0 * t.size 1 * t.size 2 := by ring
    omega

/-- On every image `Main_image_to_tensor` returns a 3-D tensor of the image's
dimensions in which every in-range element is the buffer element at its offset. -/
theorem Main_image_to_tensor_ok {α : Type} [Inhabited α] (img : DImage α) :
    ∃ T, Main_image_to_tensor img = .ok T ∧ T.nDimension = 3 ∧
      T.size 0 = img.width ∧ T.size 1 = img.height ∧ T.size 2 = img.nchannels ∧
      ∀ x y k, x < img.width → y < img.height → k < img.nchannels →
        img.data[(y * img.width + x) * img.nchannels + k]? = some (T.elem x y k) := by
  obtain ⟨st, hrun, -, -, hd, hs0, hs1, hs2, hdata⟩ := image_to_tensor_run_spec img
  refine ⟨st.tensor, ?_, hd, hs0, hs1, hs2, ?_⟩
  · simp [Main_image_to_tensor, hrun, Except.map]
  · intro x y k hx hy hk
    apply hdata x y k hx hy hk
    have := @offset_lt img.width img.height img.nchannels x y k hx hy hk
    have e : img.height * img.width * img.nchannels
        = img.width * img.height * img.nchannels := by ring
    omega

/-- C1, as the code has it: for every 3-D tensor whose three sizes and whose element
count are at most `INT_MAX`, converting it to an image and back succeeds and gives a
3-D tensor with the same three sizes on which `get3d` answers every index triple
exactly as on the original tensor (the same element inside the sizes, the same range
error outside). -/
theorem C1_round_trip_within_int {α : Type} [Inhabited α] (t : THTensor α)
    (ht : t.fitsInt) :
    ∃ T, (Main_tensor_to_image t >>= Main_image_to_tensor) = .ok T ∧
      T.nDimension = 3 ∧
      T.size 0 = t.size 0 ∧ T.size 1 = t.size 1 ∧ T.size 2 = t.size 2 ∧
      ∀ i0 i1 i2, T.get3d i0 i1 i2 = t.get3d i0 i1 i2 := by
  obtain ⟨img, himg, hw, hh, hc, hdata⟩ := Main_tensor_to_image_ok t ht
  obtain ⟨T, hT, hd, hs0, hs1, hs2, helem⟩ := Main_image_to_tensor_ok img
  refine ⟨T, ?_, hd, hs0.trans hw, hs1.trans hh, hs2.trans hc, ?_⟩
  · rw [himg]; exact hT
  · intro i0 i1 i2
    unfold THTensor.get3d
    rw [hs0, hs1, hs2, hw, hh, hc, hd, ht.1]
    by_cases hr : 3 = 3 ∧ i0 < t.size 0 ∧ i1 < t.size 1 ∧ i2 < t.size 2
    · rw [if_pos hr, if_pos hr]
      obtain ⟨-, h0, h1, h2⟩ := hr
      have a := hdata i0 i1 i2 h0 h1 h2
      have b := helem i0 i1 i2 (hw ▸ h0) (hh ▸ h1) (hc ▸ h2)
      rw [hw, hc, a] at b
      rw [Option.some.inj b]
    · rw [if_neg hr, if_neg hr]

/-- Witness for C1: a 2×3×2 tensor. -/
theorem C1_round_trip_within_int_witness :
    (sampleTensor 2 3 2).fitsInt ∧
    ∃ T, (Main_tensor_to_image (sampleTensor 2 3 2) >>= Main_image_to_tensor) = .ok T ∧
      T.nDimension = 3 ∧
      T.size 0 = 2 ∧ T.size 1 = 3 ∧ T.size 2 = 2 ∧
      ∀ i0 i1 i2, T.get3d i0 i1 i2 = (sampleTensor 2 3 2).get3d i0 i1 i2 :=
  (fun h => ⟨h, C1_round_trip_within_int (sampleTensor 2 3 2) h⟩)
    (by simp [THTensor.fitsInt, sampleTensor, INT_MAX])

/-- Counterexample to C1 as stated: a 3-D tensor of sizes (4294967296, 1, 1).  Its
width narrows to the `int` 0, the image has no elements, and the first write of the
copy loop falls outside the buffer: the round trip yields no tensor. -/
theorem C1_counterexample :
    (sampleTensor 4294967296 1 1).nDimension = 3 ∧
    long_to_int ((sampleTensor 4294967296 1 1).size 0) = 0 ∧
    (Main_tensor_to_image (sampleTensor 4294967296 1 1) >>= Main_image_to_tensor)
      = .error .bufferOverrun := by
  refine ⟨rfl, rfl, ?_⟩
  rw [Main_tensor_to_image_wide0]
  rfl

/-- C8, as the code has it: the element order is channel-last and row-major with tensor
dimension 0 as the width.  For every 3-D tensor whose three sizes and whose element
count are at most `INT_MAX`, `Main_tensor_to_image` makes an image of width `size[0]`,
height `size[1]` and `size[2]` channels whose buffer holds `t(x, y, k)` at offset
`(y * w + x) * c + k`; and for every image the tensor made by `Main_image_to_tensor`
has at `(x, y, k)` the buffer element at offset `(y * w + x) * c + k`. -/
theorem C8_channel_last_within_int {α : Type} [Inhabited α] (t : THTensor α)
    (src : DImage α) (ht : t.fitsInt) :
    (∃ img, Main_tensor_to_image t = .ok img ∧
      img.width = t.size 0 ∧ img.height = t.size 1 ∧ img.nchannels = t.size 2 ∧
      ∀ x y k, x < t.size 0 → y < t.size 1 → k < t.size 2 →
        img.read ((y * t.size 0 + x) * t.size 2 + k) = .ok (t.elem x y k)) ∧
    (∃ T, Main_image_to_tensor src = .ok T ∧ T.nDimension = 3 ∧
      T.size 0 = src.width ∧ T.size 1 = src.height ∧ T.size 2 = src.nchannels ∧
      ∀ x y k, x < src.width → y < src.height → k < src.nchannels →
        src.read ((y * src.width + x) * src.nchannels + k) = .ok (T.elem x y k)) := by
  constructor
  · obtain ⟨img, himg, hw, hh, hc, hdata⟩ := Main_tensor_to_image_ok t ht
    refine ⟨img, himg, hw, hh, hc, ?_⟩
    intro x y k hx hy hk
    simp [DImage.read, hdata x y k hx hy hk]
  · obtain ⟨T, hT, hd, hs0, hs1, hs2, helem⟩ := Main_image_to_tensor_ok src
    refine ⟨T, hT, hd, hs0, hs1, hs2, ?_⟩
    intro x y k hx hy hk
    simp [DImage.read, helem x y k hx hy hk]

/-- Witness for C8: a 3×2×2 tensor and a 2×1×2 image. -/
theorem C8_channel_last_within_int_witness :
    (sampleTensor 3 2 2).fitsInt ∧
    (∃ img, Main_tensor_to_image (sampleTensor 3 2 2) = .ok img ∧
      img.width = 3 ∧ img.height = 2 ∧ img.nchannels = 2) ∧
    (∃ T, Main_image_to_tensor sampleImage = .ok T ∧ T.nDimension = 3 ∧
      T.size 0 = 2 ∧ T.size 1 = 1 ∧ T.size 2 = 2) := by
  have h1 : (sampleTensor 3 2 2).fitsInt := by simp [THTensor.fitsInt, sampleTensor, INT_MAX]
  obtain ⟨⟨img, himg, hw, hh, hc, -⟩, ⟨T, hT, hd, h0, h1', h2, -⟩⟩ :=
    C8_channel_last_within_int (sampleTensor 3 2 2) sampleImage h1
  exact ⟨h1, ⟨img, himg, hw, hh, hc⟩, ⟨T, hT, hd, h0, h1', h2⟩⟩

/-- Counterexample to C8 as stated: a 3-D tensor of sizes (4294967297, 1, 1).  Its
width narrows to the `int` 1, so the image is allocated with width 1 and one element,
and the second write of the copy loop falls outside the buffer: no image of width
4294967297 results. -/
theorem C8_counterexample :
    (sampleTensor 4294967297 1 1).nDimension = 3 ∧
    (sampleTensor 4294967297 1 1).size 0 = 4294967297 ∧
    long_to_int ((sampleTensor 4294967297 1 1).size 0) = 1 ∧
    Main_tensor_to_image (sampleTensor 4294967297 1 1) = .error .bufferOverrun := by
  exact ⟨rfl, rfl, rfl, Main_tensor_to_image_wide1⟩

/-- C10, as the code has it: for every 3-D tensor whose three sizes `(w, h, c)` and
whose element count are at most `INT_MAX`, the copy loop of `Main_tensor_to_image` runs
to completion without leaving the buffer; its offsets are `0, 1, ..., w*h*c - 1` in
this order, each exactly once, the buffer has `w*h*c` elements and the final offset is
`w*h*c`.  The same holds for the reads of `Main_image_to_tensor` on every image of
width `w`, height `h` and `c` channels. -/
theorem C10_offsets_within_int {α : Type} [Inhabited α] (t : THTensor α)
    (src : DImage α) (ht : t.fitsInt) :
    (∃ st, tensor_to_image_run t = .ok st ∧
      st.written = List.range (t.size 0 * t.size 1 * t.size 2) ∧
      (∀ j, st.written.count j = if j < t.size 0 * t.size 1 * t.size 2 then 1 else 0) ∧
      st.img.data.size = t.size 0 * t.size 1 * t.size 2 ∧
      st.offset = t.size 0 * t.size 1 * t.size 2) ∧
    (∃ st, image_to_tensor_run src = .ok st ∧
      st.readAt = List.range (src.width * src.height * src.nchannels) ∧
      (∀ j, st.readAt.count j = if j < src.width * src.height * src.nchannels then 1 else 0) ∧
      src.data.size = src.width * src.height * src.nchannels ∧
      st.offset = src.width * src.height * src.nchannels) := by
  have hcount : ∀ n j : Nat, (List.range n).count j = if j < n then 1 else 0 := by
    intro n j
    by_cases hj : j < n
    · rw [if_pos hj]
      exact List.count_eq_one_of_mem (List.nodup_range n) (List.mem_range.mpr hj)
    · rw [if_neg hj]
      exact List.count_eq_zero_of_not_mem (fun h => hj (List.mem_range.mp h))
  constructor
  · obtain ⟨st, hrun, hoff, hwr, hw, hh, hc, -⟩ := tensor_to_image_run_spec t ht
    have e : t.size 1 * t.size 0 * t.size 2 = t.size 0 * t.size 1 * t.size 2 := by ring
    rw [e] at hoff hwr
    refine ⟨st, hrun, hwr, ?_, ?_, hoff⟩
    · intro j; rw [hwr]; exact hcount _ j
    · rw [st.img.size_eq, hw, hh, hc]
  · obtain ⟨st, hrun, hoff, hrd, -, -, -, -, -⟩ := image_to_tensor_run_spec src
    have e : src.height * src.width * src.nchannels
        = src.width * src.height * src.nchannels := by ring
    rw [e] at hoff hrd
    refine ⟨st, hrun, hrd, ?_, src.size_eq, hoff⟩
    intro j; rw [hrd]; exact hcount _ j

/-- Witness for C10: a 2×2×2 tensor and a 2×1×2 image. -/
theorem C10_offsets_within_int_witness :
    (sampleTensor 2 2 2).fitsInt ∧
    (∃ st, tensor_to_image_run (sampleTensor 2 2 2) = .ok st ∧
      st.written = List.range (2 * 2 * 2) ∧ st.offset = 2 * 2 * 2) ∧
    (∃ st, image_to_tensor_run sampleImage = .ok st ∧
      st.readAt = List.range (2 * 1 * 2) ∧ st.offset = 2 * 1 * 2) := by
  have h1 : (sampleTensor 2 2 2).fitsInt := by simp [THTensor.fitsInt, sampleTensor, INT_MAX]
  obtain ⟨⟨st, hrun, hwr, -, -, hoff⟩, ⟨st', hrun', hrd, -, -, hoff'⟩⟩ :=
    C10_offsets_within_int (sampleTensor 2 2 2) sampleImage h1
  exact ⟨h1, ⟨st, hrun, hwr, hoff⟩, ⟨st', hrun', hrd, hoff'⟩⟩

/-- Counterexample to C10 as stated.  On a 3-D tensor of sizes (4294967298, 1, 1) the
width narrows to the `int` 2, the buffer has two elements and the third write falls
outside it.  On a 3-D tensor of sizes (50000, 50000, 1) the element count 2500000000
is beyond `INT_MAX`, no `int` offset can reach it, and the run ends at the allocation. -/
theorem C10_counterexample :
    ((sampleTensor 4294967298 1 1).nDimension = 3 ∧
     long_to_int ((sampleTensor 4294967298 1 1).size 0) = 2 ∧
     tensor_to_image_run (sampleTensor 4294967298 1 1) = .error .bufferOverrun) ∧
    ((sampleTensor 50000 50000 1).nDimension = 3 ∧
     INT_MAX < 50000 * 50000 * 1 ∧
     tensor_to_image_run (sampleTensor 50000 50000 1) = .error .badAlloc) := by
  exact ⟨⟨rfl, rfl, tensor_to_image_run_wide2⟩, rfl, by decide,
    tensor_to_image_run_alloc_fail _ rfl _ rfl⟩

/-! ## Runs -/

/-- A successful step without engine call hands its value on and leaves the calls alone. -/
theorem Run.lift_ok_bind {α β γ : Type} (v : β) (f : β → Run α γ) :
    (Run.lift (.ok v) >>= f) = f v := by
  show ({ calls := [] ++ (f v).calls, result := (f v).result } : Run α γ) = f v
  rw [List.nil_append]

/-- A failed step without engine call ends the run with no call made. -/
theorem Run.lift_error_bind {α β γ : Type} (e : Failure) (f : β → Run α γ) :
    ((Run.lift (.error e) : Run α β) >>= f) = { calls := [], result := .error e } := rfl

/-! ## The Lua interface -/

/-- `luaT_checkudata` returns the tensor of a userdata of the requested type. -/
theorem luaT_checkudata_ok {α : Type} {L : lua_State α} {idx : Nat} {id : String}
    {t : THTensor α} (h : L.index idx = some (.userdata id t)) :
    luaT_checkudata L idx id = .ok t := by
  simp [luaT_checkudata, h]

/-- `luaT_checkudata` succeeds only on a userdata of the requested type. -/
theorem luaT_checkudata_eq_ok {α : Type} {L : lua_State α} {idx : Nat} {id : String}
    {t : THTensor α} (h : luaT_checkudata L idx id = .ok t) :
    L.index idx = some (.userdata id t) := by
  unfold luaT_checkudata at h
  split at h
  · split at h
    · rename_i heq hid
      cases h
      rw [heq, hid]
    · cases h
  · cases h

/-- An index beyond the arguments is not a number. -/
theorem lua_isnumber_absent {α : Type} (str2d : String → Option ℚ) (L : lua_State α)
    (idx : Nat) (h : L.stack.length < idx) : lua_isnumber str2d L idx = false := by
  have hnone : L.index idx = none := by
    unfold lua_State.index
    split
    · rfl
    · exact List.getElem?_eq_none (by omega)
  simp [lua_isnumber, hnone]

/-- A Lua number is a number, and `lua_tonumber` returns it. -/
theorem lua_number_at {α : Type} (str2d : String → Option ℚ) (L : lua_State α)
    (idx : Nat) (x : ℚ) (h : L.index idx = some (.number x)) :
    lua_isnumber str2d L idx = true ∧ lua_tonumber str2d L idx = x := by
  simp [lua_isnumber, lua_tonumber, h]

/-- The results of a call that pushed three values and returned 3 are these values. -/
theorem results_push3 {α : Type} (stack : List (LuaValue α)) (a b c : LuaValue α) :
    Returned.results { L := { stack := stack ++ [a, b, c] }, nresults := 3 } = [a, b, c] := by
  simp [Returned.results]

/-- The result of a call that pushed one value and returned 1 is this value. -/
theorem results_push1 {α : Type} (stack : List (LuaValue α)) (a : LuaValue α) :
    Returned.results { L := { stack := stack ++ [a] }, nresults := 1 } = [a] := by
  simp [Returned.results]

/-! ## The entry points run -/

/-- A call of `Main_optflow` whose first two arguments are tensors that convert to
images reaches the engine: the one engine call is `Coarse2FineFlow` on the two images
with the resolved parameters.  If the engine fails, the call fails with the engine's
failure; if it returns `(vx, vy, warpI2)`, their conversions are pushed in this order
and 3 is returned. -/
theorem Main_optflow_run {α : Type} [Inhabited α] (E : OpticalFlow α)
    (str2d : String → Option ℚ) (L : lua_State α) (t1 t2 : THTensor α) (img1 img2 : DImage α)
    (h1 : L.index 1 = some (.userdata "torch.Tensor" t1))
    (h2 : L.index 2 = some (.userdata "torch.Tensor" t2))
    (himg1 : Main_tensor_to_image t1 = .ok img1)
    (himg2 : Main_tensor_to_image t2 = .ok img2)
    (a r : ℚ) (m no ni nc : Int)
    (ha : a = if lua_isnumber str2d L 3 then lua_tonumber str2d L 3 else 0.01)
    (hr : r = if lua_isnumber str2d L 4 then lua_tonumber str2d L 4 else 0.75)
    (hm : m = if lua_isnumber str2d L 5 then double_to_int (lua_tonumber str2d L 5) else 30)
    (hno : no = if lua_isnumber str2d L 6 then double_to_int (lua_tonumber str2d L 6) else 15)
    (hni : ni = if lua_isnumber str2d L 7 then double_to_int (lua_tonumber str2d L 7) else 1)
    (hnc : nc = if lua_isnumber str2d L 8 then double_to_int (lua_tonumber str2d L 8) else 40) :
    (Main_optflow E str2d L).calls = [.Coarse2FineFlow img1 img2 a r m no ni nc] ∧
    (∀ e, E.Coarse2FineFlow img1 img2 a r m no ni nc = .error e →
      (Main_optflow E str2d L).result = .error (.engine e)) ∧
    (∀ vx vy warpI2, E.Coarse2FineFlow img1 img2 a r m no ni nc = .ok (vx, vy, warpI2) →
      ∃ T1 T2 T3, Main_image_to_tensor vx = .ok T1 ∧ Main_image_to_tensor vy = .ok T2 ∧
        Main_image_to_tensor warpI2 = .ok T3 ∧
        (Main_optflow E str2d L).result = .ok
          { L := { stack := L.stack ++ [.userdata "torch.Tensor" T1,
                     .userdata "torch.Tensor" T2, .userdata "torch.Tensor" T3] },
            nresults := 3 }) := by
  subst ha hr hm hno hni hnc
  have hrun : Main_optflow E str2d L =
      (E.call_Coarse2FineFlow img1 img2
        (if lua_isnumber str2d L 3 then lua_tonumber str2d L 3 else 0.01)
        (if lua_isnumber str2d L 4 then lua_tonumber str2d L 4 else 0.75)
        (if lua_isnumber str2d L 5 then double_to_int (lua_tonumber str2d L 5) else 30)
        (if lua_isnumber str2d L 6 then double_to_int (lua_tonumber str2d L 6) else 15)
        (if lua_isnumber str2d L 7 then double_to_int (lua_tonumber str2d L 7) else 1)
        (if lua_isnumber str2d L 8 then double_to_int (lua_tonumber str2d L 8) else 40)
        >>= fun out =>
          Run.lift (Main_image_to_tensor out.1) >>= fun ten_vx =>
          Run.lift (Main_image_to_tensor out.2.1) >>= fun ten_vy =>
          Run.lift (Main_image_to_tensor out.2.2) >>= fun ten_warp =>
          pure { L := luaT_pushudata (luaT_pushudata (luaT_pushudata L ten_vx "torch.Tensor")
                   ten_vy "torch.Tensor") ten_warp "torch.Tensor", nresults := 3 }) := by
    simp only [Main_optflow, luaT_checktypename2id, luaT_checkudata_ok h1,
      luaT_checkudata_ok h2, himg1, himg2, Run.lift_ok_bind]
  rw [hrun]
  cases hE : E.Coarse2FineFlow img1 img2
      (if lua_isnumber str2d L 3 then lua_tonumber str2d L 3 else 0.01)
      (if lua_isnumber str2d L 4 then lua_tonumber str2d L 4 else 0.75)
      (if lua_isnumber str2d L 5 then double_to_int (lua_tonumber str2d L 5) else 30)
      (if lua_isnumber str2d L 6 then double_to_int (lua_tonumber str2d L 6) else 15)
      (if lua_isnumber str2d L 7 then double_to_int (lua_tonumber str2d L 7) else 1)
      (if lua_isnumber str2d L 8 then double_to_int (lua_tonumber str2d L 8) else 40) with
  | error e =>
    refine ⟨?_, ?_, ?_⟩
    · simp only [bind, OpticalFlow.call_Coarse2FineFlow, hE, Except.mapError]
    · intro e' he'
      cases he'
      simp only [bind, OpticalFlow.call_Coarse2FineFlow, hE, Except.mapError]
    · intro vx vy w hok
      cases hok
  | ok out =>
    obtain ⟨vx, vy, w⟩ := out
    obtain ⟨T1, hT1, -⟩ := Main_image_to_tensor_ok vx
    obtain ⟨T2, hT2, -⟩ := Main_image_to_tensor_ok vy
    obtain ⟨T3, hT3, -⟩ := Main_image_to_tensor_ok w
    refine ⟨?_, ?_, ?_⟩
    · simp only [bind, OpticalFlow.call_Coarse2FineFlow, hE, Except.mapError, hT1, hT2, hT3,
        Run.lift, pure, List.append_nil]
    · intro e he
      cases he
    · intro vx' vy' w' hok
      cases hok
      refine ⟨T1, T2, T3, hT1, hT2, hT3, ?_⟩
      simp only [bind, OpticalFlow.call_Coarse2FineFlow, hE, Except.mapError, hT1, hT2, hT3,
        Run.lift, pure, luaT_pushudata, List.append_assoc, List.singleton_append,
        List.cons_append, List.nil_append]

/-- A call of `Main_optflow` whose first tensor does not convert ends there: the engine
is not called. -/
theorem Main_optflow_conv1_fail {α : Type} [Inhabited α] (E : OpticalFlow α)
    (str2d : String → Option ℚ) (L : lua_State α) (t1 t2 : THTensor α) (e : Failure)
    (h1 : L.index 1 = some (.userdata "torch.Tensor" t1))
    (h2 : L.index 2 = some (.userdata "torch.Tensor" t2))
    (himg1 : Main_tensor_to_image t1 = .error e) :
    Main_optflow E str2d L = { calls := [], result := .error e } := by
  simp only [Main_optflow, luaT_checktypename2id, luaT_checkudata_ok h1,
    luaT_checkudata_ok h2, himg1, Run.lift_ok_bind, Run.lift_error_bind]

/-- A call of `Main_warp` whose three arguments are tensors that convert to images
reaches the Warper: the one engine call is `warpFL` with the converted image as both of
its image arguments.  If the Warper fails, the call fails with the Warper's failure; if
it returns an image, its conversion is pushed and 1 is returned. -/
theorem Main_warp_run {α : Type} [Inhabited α] (E : OpticalFlow α) (L : lua_State α)
    (t tu tv : THTensor α) (input vx vy : DImage α)
    (h1 : L.index 1 = some (.userdata "torch.Tensor" t))
    (h2 : L.index 2 = some (.userdata "torch.Tensor" tu))
    (h3 : L.index 3 = some (.userdata "torch.Tensor" tv))
    (hin : Main_tensor_to_image t = .ok input)
    (hvx : Main_tensor_to_image tu = .ok vx)
    (hvy : Main_tensor_to_image tv = .ok vy) :
    (Main_warp E L).calls = [.warpFL input input vx vy] ∧
    (∀ e, E.warpFL input input vx vy = .error e →
      (Main_warp E L).result = .error (.engine e)) ∧
    (∀ W, E.warpFL input input vx vy = .ok W →
      ∃ T, Main_image_to_tensor W = .ok T ∧
        (Main_warp E L).result = .ok
          { L := { stack := L.stack ++ [.userdata "torch.Tensor" T] }, nresults := 1 }) := by
  have hrun : Main_warp E L =
      (E.call_warpFL input input vx vy >>= fun warpedInput =>
        Run.lift (Main_image_to_tensor warpedInput) >>= fun ten_warp =>
        pure { L := luaT_pushudata L ten_warp "torch.Tensor", nresults := 1 }) := by
    simp only [Main_warp, luaT_checktypename2id, luaT_checkudata_ok h1,
      luaT_checkudata_ok h2, luaT_checkudata_ok h3, hin, hvx, hvy, Run.lift_ok_bind]
  rw [hrun]
  cases hE : E.warpFL input input vx vy with
  | error e =>
    refine ⟨?_, ?_, ?_⟩
    · simp only [bind, OpticalFlow.call_warpFL, hE, Except.mapError]
    · intro e' he'
      cases he'
      simp only [bind, OpticalFlow.call_warpFL, hE, Except.mapError]
    · intro W hok
      cases hok
  | ok W =>
    obtain ⟨T, hT, -⟩ := Main_image_to_tensor_ok W
    refine ⟨?_, ?_, ?_⟩
    · simp only [bind, OpticalFlow.call_warpFL, hE, Except.mapError, hT, Run.lift, pure,
        List.append_nil]
    · intro e he
      cases he
    · intro W' hok
      cases hok
      refine ⟨T, hT, ?_⟩
      simp only [bind, OpticalFlow.call_warpFL, hE, Except.mapError, hT, Run.lift, pure,
        luaT_pushudata]

/-- A call of `Main_warp` whose image tensor does not convert ends there: the Warper is
not called. -/
theorem Main_warp_conv1_fail {α : Type} [Inhabited α] (E : OpticalFlow α)
    (L : lua_State α) (t tu tv : THTensor α) (e : Failure)
    (h1 : L.index 1 = some (.userdata "torch.Tensor" t))
    (h2 : L.index 2 = some (.userdata "torch.Tensor" tu))
    (h3 : L.index 3 = some (.userdata "torch.Tensor" tv))
    (hin : Main_tensor_to_image t = .error e) :
    Main_warp E L = { calls := [], result := .error e } := by
  simp only [Main_warp, luaT_checktypename2id, luaT_checkudata_ok h1,
    luaT_checkudata_ok h2, luaT_checkudata_ok h3, hin, Run.lift_ok_bind,
    Run.lift_error_bind]

/-! ## The estimate entry point -/

/-- C2, as the code has it: when `Main_optflow` is called with two 3-D tensors whose
sizes and element counts are at most `INT_MAX` and none of the arguments 3 to 8 is a
number, the engine is invoked, once, on the two converted images with `alpha = 0.01`,
`ratio = 0.75`, `minWidth = 30`, `nOuterFPIterations = 15`, `nInnerFPIterations = 1` and
`nCGIterations = 40`; the call fails as that invocation fails and otherwise returns the
conversions of its three outputs. -/
theorem C2_defaults_within_int {α : Type} [Inhabited α] (E : OpticalFlow α)
    (str2d : String → Option ℚ) (L : lua_State α) (t1 t2 : THTensor α)
    (h1 : L.index 1 = some (.userdata "torch.Tensor" t1))
    (h2 : L.index 2 = some (.userdata "torch.Tensor" t2))
    (ht1 : t1.fitsInt) (ht2 : t2.fitsInt)
    (hnum : ∀ i, 3 ≤ i → i ≤ 8 → lua_isnumber str2d L i = false) :
    ∃ img1 img2,
      Main_tensor_to_image t1 = .ok img1 ∧ Main_tensor_to_image t2 = .ok img2 ∧
      (Main_optflow E str2d L).calls = [.Coarse2FineFlow img1 img2 0.01 0.75 30 15 1 40] ∧
      (∀ e, E.Coarse2FineFlow img1 img2 0.01 0.75 30 15 1 40 = .error e →
        (Main_optflow E str2d L).result = .error (.engine e)) ∧
      (∀ vx vy warpI2,
        E.Coarse2FineFlow img1 img2 0.01 0.75 30 15 1 40 = .ok (vx, vy, warpI2) →
        ∃ T1 T2 T3 res, Main_image_to_tensor vx = .ok T1 ∧
          Main_image_to_tensor vy = .ok T2 ∧ Main_image_to_tensor warpI2 = .ok T3 ∧
          (Main_optflow E str2d L).result = .ok res ∧ res.nresults = 3 ∧
          res.results = [.userdata "torch.Tensor" T1, .userdata "torch.Tensor" T2,
                         .userdata "torch.Tensor" T3]) := by
  obtain ⟨img1, himg1, -⟩ := Main_tensor_to_image_ok t1 ht1
  obtain ⟨img2, himg2, -⟩ := Main_tensor_to_image_ok t2 ht2
  obtain ⟨hcalls, herr, hok⟩ :=
    Main_optflow_run E str2d L t1 t2 img1 img2 h1 h2 himg1 himg2 0.01 0.75 30 15 1 40
      (by simp [hnum 3]) (by simp [hnum 4]) (by simp [hnum 5]) (by simp [hnum 6])
      (by simp [hnum 7]) (by simp [hnum 8])
  refine ⟨img1, img2, himg1, himg2, hcalls, herr, ?_⟩
  intro vx vy w hE
  obtain ⟨T1, T2, T3, hT1, hT2, hT3, hres⟩ := hok vx vy w hE
  exact ⟨T1, T2, T3, _, hT1, hT2, hT3, hres, rfl, results_push3 _ _ _ _⟩

/-- Witness for C2: the call `infer(t1, t2)` with only two 2×2×1 tensors. -/
theorem C2_defaults_within_int_witness :
    (sampleTensor 2 2 1).fitsInt ∧
    ∃ img1 img2 res,
      Main_tensor_to_image (sampleTensor 2 2 1) = .ok img1 ∧
      Main_tensor_to_image (sampleTensor 2 2 1) = .ok img2 ∧
      (Main_optflow permissiveEngine sampleStr2d inferTwoTensors).calls
        = [.Coarse2FineFlow img1 img2 0.01 0.75 30 15 1 40] ∧
      (Main_optflow permissiveEngine sampleStr2d inferTwoTensors).result = .ok res ∧
      res.nresults = 3 := by
  have ht : (sampleTensor 2 2 1).fitsInt := by simp [THTensor.fitsInt, sampleTensor, INT_MAX]
  obtain ⟨img1, img2, himg1, himg2, hcalls, -, hok⟩ :=
    C2_defaults_within_int permissiveEngine sampleStr2d inferTwoTensors (sampleTensor 2 2 1)
      (sampleTensor 2 2 1) rfl rfl ht ht
      (fun i h3 _ => lua_isnumber_absent sampleStr2d inferTwoTensors i
        (by simp [inferTwoTensors]; omega))
  obtain ⟨_, _, _, res, -, -, -, hres, hn, -⟩ := hok img1 img2 img2 rfl
  exact ⟨ht, img1, img2, res, himg1, himg2, hcalls, hres, hn⟩

/-- Counterexample to C2 as stated: the call `infer(t1, t2)` with only two tensors, the
first of sizes (4294967296, 1, 1).  The conversion of the first tensor leaves its
buffer and the engine is not invoked. -/
theorem C2_counterexample :
    inferHuge.stack = [.userdata "torch.Tensor" (sampleTensor 4294967296 1 1),
                       .userdata "torch.Tensor" (sampleTensor 1 1 1)] ∧
    (∀ i, 3 ≤ i → lua_isnumber sampleStr2d inferHuge i = false) ∧
    Main_optflow permissiveEngine sampleStr2d inferHuge
      = { calls := [], result := .error .bufferOverrun } :=
  ⟨rfl,
   fun i h3 => lua_isnumber_absent sampleStr2d inferHuge i (by simp [inferHuge]; omega),
   Main_optflow_conv1_fail permissiveEngine sampleStr2d inferHuge _ _ _ rfl rfl
     Main_tensor_to_image_wide0⟩

/-- C3, as the code has it: `Main_optflow` compares no dimensions.  For every pair of
3-D input tensors whose sizes and element counts are at most `INT_MAX`, of equal or of
different width, height or channel count, each tensor is converted to an image of its
own sizes and the engine is invoked on the two images; the call fails with the engine's
failure if the engine fails, and returns three results if the engine returns. -/
theorem C3_no_dimension_check {α : Type} [Inhabited α] (E : OpticalFlow α)
    (str2d : String → Option ℚ) (L : lua_State α) (t1 t2 : THTensor α)
    (h1 : L.index 1 = some (.userdata "torch.Tensor" t1))
    (h2 : L.index 2 = some (.userdata "torch.Tensor" t2))
    (ht1 : t1.fitsInt) (ht2 : t2.fitsInt) :
    ∃ img1 img2 a r m no ni nc,
      Main_tensor_to_image t1 = .ok img1 ∧ Main_tensor_to_image t2 = .ok img2 ∧
      (img1.width = t1.size 0 ∧ img1.height = t1.size 1 ∧ img1.nchannels = t1.size 2) ∧
      (img2.width = t2.size 0 ∧ img2.height = t2.size 1 ∧ img2.nchannels = t2.size 2) ∧
      (Main_optflow E str2d L).calls = [.Coarse2FineFlow img1 img2 a r m no ni nc] ∧
      (∀ e, E.Coarse2FineFlow img1 img2 a r m no ni nc = .error e →
        (Main_optflow E str2d L).result = .error (.engine e)) ∧
      (∀ out, E.Coarse2FineFlow img1 img2 a r m no ni nc = .ok out →
        ∃ res, (Main_optflow E str2d L).result = .ok res ∧ res.nresults = 3 ∧
          res.results.length = 3) := by
  obtain ⟨img1, himg1, hw1, hh1, hc1, -⟩ := Main_tensor_to_image_ok t1 ht1
  obtain ⟨img2, himg2, hw2, hh2, hc2, -⟩ := Main_tensor_to_image_ok t2 ht2
  obtain ⟨hcalls, herr, hok⟩ :=
    Main_optflow_run E str2d L t1 t2 img1 img2 h1 h2 himg1 himg2 _ _ _ _ _ _
      rfl rfl rfl rfl rfl rfl
  refine ⟨img1, img2, _, _, _, _, _, _, himg1, himg2, ⟨hw1, hh1, hc1⟩, ⟨hw2, hh2, hc2⟩,
    hcalls, herr, ?_⟩
  rintro ⟨vx, vy, w⟩ hE
  obtain ⟨T1, T2, T3, -, -, -, hres⟩ := hok vx vy w hE
  refine ⟨_, hres, rfl, ?_⟩
  rw [results_push3]
  rfl

/-- Witness for C3: two tensors that differ in width, height and channel count. -/
theorem C3_no_dimension_check_witness :
    (sampleTensor 2 3 1).fitsInt ∧ (sampleTensor 3 2 2).fitsInt ∧
    ∃ img1 img2 a r m no ni nc,
      (img1.width = 2 ∧ img1.height = 3 ∧ img1.nchannels = 1) ∧
      (img2.width = 3 ∧ img2.height = 2 ∧ img2.nchannels = 2) ∧
      (Main_optflow checkingEngine sampleStr2d inferMismatchedAll).calls
        = [.Coarse2FineFlow img1 img2 a r m no ni nc] := by
  have ht1 : (sampleTensor 2 3 1).fitsInt := by simp [THTensor.fitsInt, sampleTensor, INT_MAX]
  have ht2 : (sampleTensor 3 2 2).fitsInt := by simp [THTensor.fitsInt, sampleTensor, INT_MAX]
  obtain ⟨img1, img2, a, r, m, no, ni, nc, -, -, hd1, hd2, hcalls, -, -⟩ :=
    C3_no_dimension_check checkingEngine sampleStr2d inferMismatchedAll (sampleTensor 2 3 1)
      (sampleTensor 3 2 2) rfl rfl ht1 ht2
  exact ⟨ht1, ht2, img1, img2, a, r, m, no, ni, nc, hd1, hd2, hcalls⟩

/-- Counterexample to C3 as stated: `infer` on a 1×1×1 and a 2×1×1 tensor.  The engine
is invoked on an image of width 1 and an image of width 2: with an engine that checks
its inputs the failure is the engine's own, and with an engine that does not the call
returns three results. -/
theorem C3_counterexample :
    inferMismatched.stack = [.userdata "torch.Tensor" (sampleTensor 1 1 1),
                             .userdata "torch.Tensor" (sampleTensor 2 1 1)] ∧
    (sampleTensor 1 1 1).size 0 ≠ (sampleTensor 2 1 1).size 0 ∧
    (∃ img1 img2, img1.width = 1 ∧ img2.width = 2 ∧
      (Main_optflow checkingEngine sampleStr2d inferMismatched).calls
        = [.Coarse2FineFlow img1 img2 0.01 0.75 30 15 1 40] ∧
      (Main_optflow checkingEngine sampleStr2d inferMismatched).result
        = .error (.engine .InvalidInput)) ∧
    (∃ res, (Main_optflow permissiveEngine sampleStr2d inferMismatched).result = .ok res ∧
      res.results.length = 3) := by
  have ht1 : (sampleTensor 1 1 1).fitsInt := by simp [THTensor.fitsInt, sampleTensor, INT_MAX]
  have ht2 : (sampleTensor 2 1 1).fitsInt := by simp [THTensor.fitsInt, sampleTensor, INT_MAX]
  obtain ⟨img1, himg1, hw1, -⟩ := Main_tensor_to_image_ok _ ht1
  obtain ⟨img2, himg2, hw2, -⟩ := Main_tensor_to_image_ok _ ht2
  have hargs : ∀ E : OpticalFlow ℚ, _ :=
    fun E => Main_optflow_run E sampleStr2d inferMismatched _ _ img1 img2 rfl rfl himg1 himg2
      0.01 0.75 30 15 1 40
      (by simp [lua_isnumber, lua_State.index, inferMismatched])
      (by simp [lua_isnumber, lua_State.index, inferMismatched])
      (by simp [lua_isnumber, lua_State.index, inferMismatched])
      (by simp [lua_isnumber, lua_State.index, inferMismatched])
      (by simp [lua_isnumber, lua_State.index, inferMismatched])
      (by simp [lua_isnumber, lua_State.index, inferMismatched])
  have hw1' : img1.width = 1 := hw1
  have hw2' : img2.width = 2 := hw2
  refine ⟨rfl, by decide, ⟨img1, img2, hw1', hw2', (hargs checkingEngine).1, ?_⟩, ?_⟩
  · apply (hargs checkingEngine).2.1
    simp [checkingEngine, hw1', hw2']
  · obtain ⟨T1, T2, T3, -, -, -, hres⟩ := (hargs permissiveEngine).2.2 img1 img2 img2 rfl
    refine ⟨_, hres, ?_⟩
    rw [results_push3]
    rfl

/-- C5, as the code has it: `Main_optflow` validates no parameter.  On a call with two
3-D tensors whose sizes and element counts are at most `INT_MAX`, whatever numbers are
given as arguments 3, 4 and 5, also a non-positive `alpha`, a `ratio` outside (0,1) or a
non-positive `minWidth`, the engine is invoked with them as `alpha`, `ratio` and
(converted to `int`: truncated toward zero when that fits in an `int`) `minWidth`; the
call fails with the engine's failure if the engine fails, and returns three results if
the engine returns. -/
theorem C5_no_parameter_check {α : Type} [Inhabited α] (E : OpticalFlow α)
    (str2d : String → Option ℚ) (L : lua_State α) (t1 t2 : THTensor α) (a r m : ℚ)
    (h1 : L.index 1 = some (.userdata "torch.Tensor" t1))
    (h2 : L.index 2 = some (.userdata "torch.Tensor" t2))
    (ht1 : t1.fitsInt) (ht2 : t2.fitsInt)
    (h3 : L.index 3 = some (.number a))
    (h4 : L.index 4 = some (.number r))
    (h5 : L.index 5 = some (.number m)) :
    ∃ img1 img2 mw no ni nc,
      Main_tensor_to_image t1 = .ok img1 ∧ Main_tensor_to_image t2 = .ok img2 ∧
      (Main_optflow E str2d L).calls = [.Coarse2FineFlow img1 img2 a r mw no ni nc] ∧
      (INT_MIN ≤ mw ∧ mw ≤ (INT_MAX : Int)) ∧
      (INT_MIN ≤ truncToZero m ∧ truncToZero m ≤ (INT_MAX : Int) → mw = truncToZero m) ∧
      (∀ e, E.Coarse2FineFlow img1 img2 a r mw no ni nc = .error e →
        (Main_optflow E str2d L).result = .error (.engine e)) ∧
      (∀ out, E.Coarse2FineFlow img1 img2 a r mw no ni nc = .ok out →
        ∃ res, (Main_optflow E str2d L).result = .ok res ∧ res.nresults = 3) := by
  obtain ⟨ha1, ha2⟩ := lua_number_at str2d L 3 a h3
  obtain ⟨hr1, hr2⟩ := lua_number_at str2d L 4 r h4
  obtain ⟨hm1, hm2⟩ := lua_number_at str2d L 5 m h5
  obtain ⟨img1, himg1, -⟩ := Main_tensor_to_image_ok t1 ht1
  obtain ⟨img2, himg2, -⟩ := Main_tensor_to_image_ok t2 ht2
  obtain ⟨hcalls, herr, hok⟩ :=
    Main_optflow_run E str2d L t1 t2 img1 img2 h1 h2 himg1 himg2 a r (double_to_int m) _ _ _
      (by simp [ha1, ha2]) (by simp [hr1, hr2]) (by simp [hm1, hm2]) rfl rfl rfl
  refine ⟨img1, img2, double_to_int m, _, _, _, himg1, himg2, hcalls,
    double_to_int_range m, double_to_int_trunc m, herr, ?_⟩
  rintro ⟨vx, vy, w⟩ hE
  obtain ⟨T1, T2, T3, -, -, -, hres⟩ := hok vx vy w hE
  exact ⟨_, hres, rfl⟩

/-- Witness for C5: the call `infer(t1, t2, 0, 1, 0)`. -/
theorem C5_no_parameter_check_witness :
    (sampleTensor 1 1 1).fitsInt ∧
    ∃ img1 img2 no ni nc,
      (Main_optflow checkingEngine sampleStr2d inferEdgeParams).calls
        = [.Coarse2FineFlow img1 img2 0 1 0 no ni nc] := by
  have ht : (sampleTensor 1 1 1).fitsInt := by simp [THTensor.fitsInt, sampleTensor, INT_MAX]
  obtain ⟨img1, img2, mw, no, ni, nc, -, -, hcalls, -, htr, -, -⟩ :=
    C5_no_parameter_check checkingEngine sampleStr2d inferEdgeParams (sampleTensor 1 1 1)
      (sampleTensor 1 1 1) 0 1 0 rfl rfl ht ht rfl rfl rfl
  have h0 : truncToZero 0 = 0 := by simpa using truncToZero_intCast 0
  have hmw : mw = 0 := by
    rw [htr (by rw [h0]; unfold INT_MIN INT_MAX; norm_num), h0]
  subst hmw
  exact ⟨ht, img1, img2, no, ni, nc, hcalls⟩

/-- Counterexample to C5 as stated: `infer(t1, t2, -1, 2, -5)`.  The engine is invoked
with `alpha = -1`, `ratio = 2` and `minWidth = -5`: with an engine that checks its
parameters the failure is the engine's own, and with an engine that does not the call
returns three results. -/
theorem C5_counterexample :
    ((-1 : ℚ) ≤ 0 ∧ ¬ ((2 : ℚ) < 1) ∧ (-5 : ℚ) ≤ 0) ∧
    inferBadParams.stack.drop 2 = [.number (-1), .number 2, .number (-5)] ∧
    (∃ img1 img2,
      (Main_optflow checkingEngine sampleStr2d inferBadParams).calls
        = [.Coarse2FineFlow img1 img2 (-1) 2 (-5) 15 1 40] ∧
      (Main_optflow checkingEngine sampleStr2d inferBadParams).result
        = .error (.engine .InvalidParameter)) ∧
    (∃ res, (Main_optflow permissiveEngine sampleStr2d inferBadParams).result = .ok res ∧
      res.results.length = 3) := by
  have ht : (sampleTensor 1 1 1).fitsInt := by simp [THTensor.fitsInt, sampleTensor, INT_MAX]
  obtain ⟨img1, himg1, hw1, hh1, hc1, -⟩ := Main_tensor_to_image_ok _ ht
  have hm : double_to_int (-5 : ℚ) = -5 := by
    have := double_to_int_intCast (-5) (by unfold INT_MIN INT_MAX; norm_num)
    simpa using this
  have hargs : ∀ E : OpticalFlow ℚ, _ :=
    fun E => Main_optflow_run E sampleStr2d inferBadParams _ _ img1 img1 rfl rfl himg1 himg1
      (-1) 2 (-5) 15 1 40
      (by simp [lua_isnumber, lua_tonumber, lua_State.index, inferBadParams])
      (by simp [lua_isnumber, lua_tonumber, lua_State.index, inferBadParams])
      (by simp [lua_isnumber, lua_tonumber, lua_State.index, inferBadParams, hm])
      (by simp [lua_isnumber, lua_State.index, inferBadParams])
      (by simp [lua_isnumber, lua_State.index, inferBadParams])
      (by simp [lua_isnumber, lua_State.index, inferBadParams])
  refine ⟨⟨by norm_num, by norm_num, by norm_num⟩, rfl,
    ⟨img1, img1, (hargs checkingEngine).1, ?_⟩, ?_⟩
  · apply (hargs checkingEngine).2.1
    simp [checkingEngine]
  · obtain ⟨T1, T2, T3, -, -, -, hres⟩ := (hargs permissiveEngine).2.2 img1 img1 img1 rfl
    refine ⟨_, hres, ?_⟩
    rw [results_push3]
    rfl

/-- C6: every successful call of `Main_optflow` returns exactly three results.  Its
arguments 1 and 2 are tensors, the engine was run once on their conversions (argument 1
as image1, argument 2 as image2) with the parameters resolved from arguments 3 to 8
(the number given there if `lua_isnumber` holds, converted to `int` for the four `int`
parameters, and the default otherwise), and the results are, in this order, the
conversions of the engine outputs `vx`, `vy` and `warpI2`. -/
theorem C6_three_results_in_order {α : Type} [Inhabited α] (E : OpticalFlow α)
    (str2d : String → Option ℚ) (L : lua_State α) (res : Returned α)
    (h : (Main_optflow E str2d L).result = .ok res) :
    res.nresults = 3 ∧
    ∃ t1 t2 img1 img2 a r m no ni nc vx vy warpI2 T1 T2 T3,
      L.index 1 = some (.userdata "torch.Tensor" t1) ∧
      L.index 2 = some (.userdata "torch.Tensor" t2) ∧
      Main_tensor_to_image t1 = .ok img1 ∧ Main_tensor_to_image t2 = .ok img2 ∧
      (a = if lua_isnumber str2d L 3 then lua_tonumber str2d L 3 else 0.01) ∧
      (r = if lua_isnumber str2d L 4 then lua_tonumber str2d L 4 else 0.75) ∧
      (m = if lua_isnumber str2d L 5 then double_to_int (lua_tonumber str2d L 5) else 30) ∧
      (no = if lua_isnumber str2d L 6 then double_to_int (lua_tonumber str2d L 6) else 15) ∧
      (ni = if lua_isnumber str2d L 7 then double_to_int (lua_tonumber str2d L 7) else 1) ∧
      (nc = if lua_isnumber str2d L 8 then double_to_int (lua_tonumber str2d L 8) else 40) ∧
      (Main_optflow E str2d L).calls = [.Coarse2FineFlow img1 img2 a r m no ni nc] ∧
      E.Coarse2FineFlow img1 img2 a r m no ni nc = .ok (vx, vy, warpI2) ∧
      Main_image_to_tensor vx = .ok T1 ∧ Main_image_to_tensor vy = .ok T2 ∧
      Main_image_to_tensor warpI2 = .ok T3 ∧
      res.results = [.userdata "torch.Tensor" T1, .userdata "torch.Tensor" T2,
                     .userdata "torch.Tensor" T3] ∧
      res.L.stack = L.stack ++ res.results := by
  cases hc1 : luaT_checkudata L 1 "torch.Tensor" with
  | error e1 =>
    have hrun : Main_optflow E str2d L = { calls := [], result := .error e1 } := by
      simp only [Main_optflow, luaT_checktypename2id, hc1, Run.lift_error_bind]
    rw [hrun] at h
    cases h
  | ok t1 =>
    cases hc2 : luaT_checkudata L 2 "torch.Tensor" with
    | error e2 =>
      have hrun : Main_optflow E str2d L = { calls := [], result := .error e2 } := by
        simp only [Main_optflow, luaT_checktypename2id, hc1, hc2, Run.lift_ok_bind,
          Run.lift_error_bind]
      rw [hrun] at h
      cases h
    | ok t2 =>
      have h1 := luaT_checkudata_eq_ok hc1
      have h2 := luaT_checkudata_eq_ok hc2
      cases himg1 : Main_tensor_to_image t1 with
      | error e3 =>
        rw [Main_optflow_conv1_fail E str2d L t1 t2 e3 h1 h2 himg1] at h
        cases h
      | ok img1 =>
        cases himg2 : Main_tensor_to_image t2 with
        | error e4 =>
          have hrun : Main_optflow E str2d L = { calls := [], result := .error e4 } := by
            simp only [Main_optflow, luaT_checktypename2id, hc1, hc2, himg1, himg2,
              Run.lift_ok_bind, Run.lift_error_bind]
          rw [hrun] at h
          cases h
        | ok img2 =>
          obtain ⟨hcalls, herr, hok⟩ :=
            Main_optflow_run E str2d L t1 t2 img1 img2 h1 h2 himg1 himg2 _ _ _ _ _ _
              rfl rfl rfl rfl rfl rfl
          cases hE : E.Coarse2FineFlow img1 img2
              (if lua_isnumber str2d L 3 then lua_tonumber str2d L 3 else 0.01)
              (if lua_isnumber str2d L 4 then lua_tonumber str2d L 4 else 0.75)
              (if lua_isnumber str2d L 5 then double_to_int (lua_tonumber str2d L 5) else 30)
              (if lua_isnumber str2d L 6 then double_to_int (lua_tonumber str2d L 6) else 15)
              (if lua_isnumber str2d L 7 then double_to_int (lua_tonumber str2d L 7) else 1)
              (if lua_isnumber str2d L 8 then double_to_int (lua_tonumber str2d L 8) else 40)
            with
          | error e5 =>
            rw [herr e5 hE] at h
            cases h
          | ok out =>
            obtain ⟨vx, vy, w⟩ := out
            obtain ⟨T1, T2, T3, hT1, hT2, hT3, hres⟩ := hok vx vy w hE
            rw [hres] at h
            cases h
            refine ⟨rfl, t1, t2, img1, img2, _, _, _, _, _, _, vx, vy, w, T1, T2, T3, h1, h2,
              himg1, himg2, rfl, rfl, rfl, rfl, rfl, rfl, hcalls, hE, hT1, hT2, hT3,
              results_push3 _ _ _ _, ?_⟩
            rw [results_push3]

/-- Witness for C6: the successful call `infer(t1, t2, 0.02)`. -/
theorem C6_three_results_in_order_witness :
    ∃ res, (Main_optflow permissiveEngine sampleStr2d inferAlphaOnly).result = .ok res ∧
      res.nresults = 3 ∧ res.results.length = 3 ∧
      ∃ img1 img2, (Main_optflow permissiveEngine sampleStr2d inferAlphaOnly).calls
        = [.Coarse2FineFlow img1 img2 0.02 0.75 30 15 1 40] := by
  have ht : (sampleTensor 1 2 3).fitsInt := by simp [THTensor.fitsInt, sampleTensor, INT_MAX]
  obtain ⟨img, himg, -⟩ := Main_tensor_to_image_ok _ ht
  obtain ⟨-, -, hok⟩ :=
    Main_optflow_run permissiveEngine sampleStr2d inferAlphaOnly _ _ img img rfl rfl himg himg
      _ _ _ _ _ _ rfl rfl rfl rfl rfl rfl
  obtain ⟨T1, T2, T3, -, -, -, hres⟩ := hok img img img rfl
  obtain ⟨hn, t1, t2, img1, img2, a, r, m, no, ni, nc, vx, vy, w, U1, U2, U3, -, -, -, -,
      ha, hr, hm, hno, hni, hnc, hcalls, -, -, -, -, hresults, -⟩ :=
    C6_three_results_in_order permissiveEngine sampleStr2d inferAlphaOnly _ hres
  have ha' : a = 0.02 := by
    simpa [lua_isnumber, lua_tonumber, lua_State.index, inferAlphaOnly] using ha
  have hr' : r = 0.75 := by simpa [lua_isnumber, lua_State.index, inferAlphaOnly] using hr
  have hm' : m = 30 := by simpa [lua_isnumber, lua_State.index, inferAlphaOnly] using hm
  have hno' : no = 15 := by simpa [lua_isnumber, lua_State.index, inferAlphaOnly] using hno
  have hni' : ni = 1 := by simpa [lua_isnumber, lua_State.index, inferAlphaOnly] using hni
  have hnc' : nc = 40 := by simpa [lua_isnumber, lua_State.index, inferAlphaOnly] using hnc
  subst ha' hr' hm' hno' hni' hnc'
  exact ⟨_, hres, hn, by rw [hresults]; rfl, img1, img2, hcalls⟩

/-- C9, as the code has it: the overrides of `Main_optflow` are positional and
independent.  On a call with two 3-D tensors whose sizes and element counts are at most
`INT_MAX`, the engine is invoked with, for each of the arguments 3 to 8, the number
given there if the argument is a number (`lua_isnumber`) and the default otherwise;
for the four `int` parameters the number is converted to `int`, which is the truncation
toward zero whenever the truncated value lies in the range of `int`.  A Lua number at
position `i` reaches the engine as parameter `i`, an absent argument leaves the default,
and an iteration count given as 0 reaches the engine as 0.  The call fails as the
invocation fails and otherwise returns the conversions of its three outputs. -/
theorem C9_positional_overrides {α : Type} [Inhabited α] (E : OpticalFlow α)
    (str2d : String → Option ℚ) (L : lua_State α) (t1 t2 : THTensor α)
    (h1 : L.index 1 = some (.userdata "torch.Tensor" t1))
    (h2 : L.index 2 = some (.userdata "torch.Tensor" t2))
    (ht1 : t1.fitsInt) (ht2 : t2.fitsInt) :
    ∃ img1 img2 a r m no ni nc,
      Main_tensor_to_image t1 = .ok img1 ∧ Main_tensor_to_image t2 = .ok img2 ∧
      (Main_optflow E str2d L).calls = [.Coarse2FineFlow img1 img2 a r m no ni nc] ∧
      (∀ e, E.Coarse2FineFlow img1 img2 a r m no ni nc = .error e →
        (Main_optflow E str2d L).result = .error (.engine e)) ∧
      (∀ vx vy warpI2, E.Coarse2FineFlow img1 img2 a r m no ni nc = .ok (vx, vy, warpI2) →
        ∃ T1 T2 T3 res, Main_image_to_tensor vx = .ok T1 ∧
          Main_image_to_tensor vy = .ok T2 ∧ Main_image_to_tensor warpI2 = .ok T3 ∧
          (Main_optflow E str2d L).result = .ok res ∧
          res.results = [.userdata "torch.Tensor" T1, .userdata "torch.Tensor" T2,
                         .userdata "torch.Tensor" T3]) ∧
      (a = if lua_isnumber str2d L 3 then lua_tonumber str2d L 3 else 0.01) ∧
      (r = if lua_isnumber str2d L 4 then lua_tonumber str2d L 4 else 0.75) ∧
      (m = if lua_isnumber str2d L 5 then double_to_int (lua_tonumber str2d L 5) else 30) ∧
      (no = if lua_isnumber str2d L 6 then double_to_int (lua_tonumber str2d L 6) else 15) ∧
      (ni = if lua_isnumber str2d L 7 then double_to_int (lua_tonumber str2d L 7) else 1) ∧
      (nc = if lua_isnumber str2d L 8 then double_to_int (lua_tonumber str2d L 8) else 40) ∧
      (∀ x : ℚ, INT_MIN ≤ truncToZero x ∧ truncToZero x ≤ (INT_MAX : Int) →
        double_to_int x = truncToZero x) ∧
      (∀ x, L.index 3 = some (.number x) → a = x) ∧
      (∀ x, L.index 4 = some (.number x) → r = x) ∧
      (∀ x, L.index 5 = some (.number x) →
        INT_MIN ≤ truncToZero x ∧ truncToZero x ≤ (INT_MAX : Int) → m = truncToZero x) ∧
      (∀ x, L.index 6 = some (.number x) →
        INT_MIN ≤ truncToZero x ∧ truncToZero x ≤ (INT_MAX : Int) → no = truncToZero x) ∧
      (∀ x, L.index 7 = some (.number x) →
        INT_MIN ≤ truncToZero x ∧ truncToZero x ≤ (INT_MAX : Int) → ni = truncToZero x) ∧
      (∀ x, L.index 8 = some (.number x) →
        INT_MIN ≤ truncToZero x ∧ truncToZero x ≤ (INT_MAX : Int) → nc = truncToZero x) ∧
      (L.stack.length < 3 → a = 0.01) ∧ (L.stack.length < 4 → r = 0.75) ∧
      (L.stack.length < 5 → m = 30) ∧ (L.stack.length < 6 → no = 15) ∧
      (L.stack.length < 7 → ni = 1) ∧ (L.stack.length < 8 → nc = 40) ∧
      (L.index 6 = some (.number 0) → no = 0) ∧
      (L.index 7 = some (.number 0) → ni = 0) ∧
      (L.index 8 = some (.number 0) → nc = 0) := by
  obtain ⟨img1, himg1, -⟩ := Main_tensor_to_image_ok t1 ht1
  obtain ⟨img2, himg2, -⟩ := Main_tensor_to_image_ok t2 ht2
  obtain ⟨hcalls, herr, hok⟩ :=
    Main_optflow_run E str2d L t1 t2 img1 img2 h1 h2 himg1 himg2 _ _ _ _ _ _
      rfl rfl rfl rfl rfl rfl
  have hnum : ∀ i x, L.index i = some (.number x) →
      (if lua_isnumber str2d L i then lua_tonumber str2d L i else (0.01 : ℚ)) = x ∧
      (if lua_isnumber str2d L i then lua_tonumber str2d L i else (0.75 : ℚ)) = x ∧
      ∀ d : Int, INT_MIN ≤ truncToZero x ∧ truncToZero x ≤ (INT_MAX : Int) →
        (if lua_isnumber str2d L i then double_to_int (lua_tonumber str2d L i) else d)
          = truncToZero x := by
    intro i x hx
    obtain ⟨e1, e2⟩ := lua_number_at str2d L i x hx
    refine ⟨by simp [e1, e2], by simp [e1, e2], ?_⟩
    intro d hr
    simp [e1, e2, double_to_int_trunc x hr]
  have habs : ∀ i, L.stack.length < i → lua_isnumber str2d L i = false :=
    fun i hi => lua_isnumber_absent str2d L i hi
  have hz : truncToZero 0 = 0 := by simpa using truncToZero_intCast 0
  have hzr : INT_MIN ≤ truncToZero 0 ∧ truncToZero 0 ≤ (INT_MAX : Int) := by
    rw [hz]; unfold INT_MIN INT_MAX; norm_num
  have hzero : ∀ i, L.index i = some (.number 0) → ∀ d : Int,
      (if lua_isnumber str2d L i then double_to_int (lua_tonumber str2d L i) else d) = 0 := by
    intro i hi d
    rw [(hnum i 0 hi).2.2 d hzr, hz]
  refine ⟨img1, img2, _, _, _, _, _, _, himg1, himg2, hcalls, herr, ?_, rfl, rfl, rfl, rfl,
    rfl, rfl, double_to_int_trunc,
    fun x hx => (hnum 3 x hx).1, fun x hx => (hnum 4 x hx).2.1,
    fun x hx hr => (hnum 5 x hx).2.2 30 hr, fun x hx hr => (hnum 6 x hx).2.2 15 hr,
    fun x hx hr => (hnum 7 x hx).2.2 1 hr, fun x hx hr => (hnum 8 x hx).2.2 40 hr,
    fun hl => by simp [habs 3 hl], fun hl => by simp [habs 4 hl],
    fun hl => by simp [habs 5 hl], fun hl => by simp [habs 6 hl],
    fun hl => by simp [habs 7 hl], fun hl => by simp [habs 8 hl],
    fun hz' => hzero 6 hz' 15, fun hz' => hzero 7 hz' 1, fun hz' => hzero 8 hz' 40⟩
  intro vx vy w hE
  obtain ⟨T1, T2, T3, hT1, hT2, hT3, hres⟩ := hok vx vy w hE
  exact ⟨T1, T2, T3, _, hT1, hT2, hT3, hres, results_push3 _ _ _ _⟩

/-- Witness for C9: the call `infer(t1, t2, 0.5, nil, "20", 0, 2.7)` runs the engine
with `alpha = 0.5`, the default `ratio`, `minWidth = 20`, `nOuterFPIterations = 0`,
`nInnerFPIterations = 2` and the default `nCGIterations`. -/
theorem C9_positional_overrides_witness :
    (sampleTensor 2 1 1).fitsInt ∧
    ∃ img1 img2, (Main_optflow permissiveEngine sampleStr2d inferOverrides).calls
      = [.Coarse2FineFlow img1 img2 0.5 0.75 20 0 2 40] := by
  have ht : (sampleTensor 2 1 1).fitsInt := by simp [THTensor.fitsInt, sampleTensor, INT_MAX]
  obtain ⟨img1, img2, a, r, m, no, ni, nc, -, -, hcalls, -, -, -, hr, hm, -, -, -, -,
      ha, -, -, -, hni, -, -, -, -, -, -, hnc, hno, -, -⟩ :=
    C9_positional_overrides permissiveEngine sampleStr2d inferOverrides (sampleTensor 2 1 1)
      (sampleTensor 2 1 1) rfl rfl ht ht
  have h20 : double_to_int (20 : ℚ) = 20 := by
    have := double_to_int_intCast 20 (by unfold INT_MIN INT_MAX; norm_num)
    simpa using this
  have ht27 : truncToZero 2.7 = 2 := by
    unfold truncToZero
    rw [if_pos (by norm_num), Int.floor_eq_iff]
    norm_num
  have ha' : a = 0.5 := ha 0.5 rfl
  have hr' : r = 0.75 := by
    simpa [lua_isnumber, lua_State.index, inferOverrides] using hr
  have hm' : m = 20 := by
    simpa [lua_isnumber, lua_tonumber, lua_State.index, inferOverrides, sampleStr2d, h20]
      using hm
  have hno' : no = 0 := hno rfl
  have hni' : ni = 2 := by
    rw [hni 2.7 rfl (by rw [ht27]; unfold INT_MIN INT_MAX; norm_num), ht27]
  have hnc' : nc = 40 := hnc (by simp [inferOverrides])
  subst ha' hr' hm' hno' hni' hnc'
  exact ⟨ht, img1, img2, hcalls⟩

/-- Counterexample to C9 as stated.  On `infer(t1, t2, 0.25, 0.5, 10000000000)` the
number given for `minWidth` truncates to 10000000000, which no `int` holds, and the
engine is invoked with `minWidth = -2147483648`.  On `infer(t1, t2, 0.5)` with a first
tensor of sizes (4294967297, 1, 1) the conversion leaves its buffer and the engine is
not invoked, so the number given for `alpha` reaches nothing. -/
theorem C9_counterexample :
    (inferHugeMinWidth.index 5 = some (.number 10000000000) ∧
     truncToZero 10000000000 = 10000000000 ∧
     ∃ img1 img2, (Main_optflow permissiveEngine sampleStr2d inferHugeMinWidth).calls
       = [.Coarse2FineFlow img1 img2 0.25 0.5 (-2147483648) 15 1 40]) ∧
    (inferHugeOverride.index 3 = some (.number 0.5) ∧
     Main_optflow permissiveEngine sampleStr2d inferHugeOverride
       = { calls := [], result := .error .bufferOverrun }) := by
  have ht : (sampleTensor 1 1 1).fitsInt := by simp [THTensor.fitsInt, sampleTensor, INT_MAX]
  obtain ⟨img1, himg1, -⟩ := Main_tensor_to_image_ok _ ht
  have htr : truncToZero 10000000000 = 10000000000 := by
    simpa using truncToZero_intCast 10000000000
  have hm : double_to_int (10000000000 : ℚ) = -2147483648 := by
    rw [double_to_int_out_of_range _ (by rw [htr]; unfold INT_MIN INT_MAX; norm_num)]
    rfl
  obtain ⟨hcalls, -, -⟩ :=
    Main_optflow_run permissiveEngine sampleStr2d inferHugeMinWidth _ _ img1 img1 rfl rfl
      himg1 himg1 0.25 0.5 (-2147483648) 15 1 40
      (by simp [lua_isnumber, lua_tonumber, lua_State.index, inferHugeMinWidth])
      (by simp [lua_isnumber, lua_tonumber, lua_State.index, inferHugeMinWidth])
      (by simp [lua_isnumber, lua_tonumber, lua_State.index, inferHugeMinWidth, hm])
      (by simp [lua_isnumber, lua_State.index, inferHugeMinWidth])
      (by simp [lua_isnumber, lua_State.index, inferHugeMinWidth])
      (by simp [lua_isnumber, lua_State.index, inferHugeMinWidth])
  exact ⟨⟨rfl, htr, img1, img1, hcalls⟩, rfl,
    Main_optflow_conv1_fail permissiveEngine sampleStr2d inferHugeOverride _ _ _ rfl rfl
      Main_tensor_to_image_wide1⟩

/-! ## The warp entry point -/

/-- C7, as the code has it: on a 3-D image tensor and two 3-D flow tensors whose sizes
and element counts are at most `INT_MAX`, `Main_warp` invokes the Warper once, as
`warpFL(I, I, U, V)` where `I`, `U`, `V` are the conversions of arguments 1, 2, 3: the
same image is both image arguments, argument 2 is the horizontal and argument 3 the
vertical flow.  The Warper call is the only engine call, so no flow is estimated.  When
the Warper returns an image, `Main_warp` returns exactly one result, the conversion of
that image; when the Warper fails, `Main_warp` fails with the Warper's failure. -/
theorem C7_warp_only {α : Type} [Inhabited α] (E : OpticalFlow α) (L : lua_State α)
    (t tu tv : THTensor α)
    (h1 : L.index 1 = some (.userdata "torch.Tensor" t))
    (h2 : L.index 2 = some (.userdata "torch.Tensor" tu))
    (h3 : L.index 3 = some (.userdata "torch.Tensor" tv))
    (ht : t.fitsInt) (htu : tu.fitsInt) (htv : tv.fitsInt) :
    ∃ I U V,
      Main_tensor_to_image t = .ok I ∧ Main_tensor_to_image tu = .ok U ∧
      Main_tensor_to_image tv = .ok V ∧
      (Main_warp E L).calls = [.warpFL I I U V] ∧
      (∀ W, E.warpFL I I U V = .ok W →
        ∃ T res, Main_image_to_tensor W = .ok T ∧ (Main_warp E L).result = .ok res ∧
          res.nresults = 1 ∧ res.results = [.userdata "torch.Tensor" T]) ∧
      (∀ e, E.warpFL I I U V = .error e → (Main_warp E L).result = .error (.engine e)) := by
  obtain ⟨I, hI, -⟩ := Main_tensor_to_image_ok t ht
  obtain ⟨U, hU, -⟩ := Main_tensor_to_image_ok tu htu
  obtain ⟨V, hV, -⟩ := Main_tensor_to_image_ok tv htv
  obtain ⟨hcalls, herr, hok⟩ := Main_warp_run E L t tu tv I U V h1 h2 h3 hI hU hV
  refine ⟨I, U, V, hI, hU, hV, hcalls, ?_, herr⟩
  intro W hW
  obtain ⟨T, hT, hres⟩ := hok W hW
  exact ⟨T, _, hT, hres, rfl, results_push1 _ _⟩

/-- Witness for C7: the call `warp(img, vx, vy)` on a 2×2×3 image with 2×2×1 flows. -/
theorem C7_warp_only_witness :
    (sampleTensor 2 2 3).fitsInt ∧ (sampleTensor 2 2 1).fitsInt ∧
    ∃ I U V T res,
      Main_tensor_to_image (sampleTensor 2 2 3) = .ok I ∧
      Main_tensor_to_image (sampleTensor 2 2 1) = .ok U ∧
      Main_tensor_to_image (sampleTensor 2 2 1) = .ok V ∧
      (Main_warp permissiveEngine warpMatched).calls = [.warpFL I I U V] ∧
      Main_image_to_tensor I = .ok T ∧
      (Main_warp permissiveEngine warpMatched).result = .ok res ∧
      res.nresults = 1 ∧ res.results = [.userdata "torch.Tensor" T] := by
  have ht : (sampleTensor 2 2 3).fitsInt := by simp [THTensor.fitsInt, sampleTensor, INT_MAX]
  have hf : (sampleTensor 2 2 1).fitsInt := by simp [THTensor.fitsInt, sampleTensor, INT_MAX]
  obtain ⟨I, U, V, hI, hU, hV, hcalls, hok, -⟩ :=
    C7_warp_only permissiveEngine warpMatched (sampleTensor 2 2 3) (sampleTensor 2 2 1)
      (sampleTensor 2 2 1) rfl rfl rfl ht hf hf
  obtain ⟨T, res, hT, hres, hn, hresults⟩ := hok I rfl
  exact ⟨ht, hf, I, U, V, T, res, hI, hU, hV, hcalls, hT, hres, hn, hresults⟩

/-- Counterexample to C7 as stated.  On `warp(img, vx, vy)` with an image tensor of sizes
(4294967298, 1, 1) the conversion of the image leaves its buffer: the Warper is not
invoked and nothing is returned.  On `warp(img, vx, vy)` with a 3×1×1 image and 1×1×1
flows and a Warper that checks its inputs, the Warper fails and nothing is returned. -/
theorem C7_counterexample :
    (warpHuge.stack = [.userdata "torch.Tensor" (sampleTensor 4294967298 1 1),
       .userdata "torch.Tensor" (sampleTensor 1 1 1),
       .userdata "torch.Tensor" (sampleTensor 1 1 1)] ∧
     Main_warp permissiveEngine warpHuge
       = { calls := [], result := .error .bufferOverrun }) ∧
    (warpShortFlows.stack = [.userdata "torch.Tensor" (sampleTensor 3 1 1),
       .userdata "torch.Tensor" (sampleTensor 1 1 1),
       .userdata "torch.Tensor" (sampleTensor 1 1 1)] ∧
     (Main_warp checkingEngine warpShortFlows).result = .error (.engine .InvalidInput)) := by
  have hwide : Main_tensor_to_image (sampleTensor 4294967298 1 1)
      = .error .bufferOverrun := by
    simp only [Main_tensor_to_image, tensor_to_image_run_wide2]
    rfl
  have h3 : (sampleTensor 3 1 1).fitsInt := by simp [THTensor.fitsInt, sampleTensor, INT_MAX]
  have h1 : (sampleTensor 1 1 1).fitsInt := by simp [THTensor.fitsInt, sampleTensor, INT_MAX]
  obtain ⟨I, hI, hwI, -⟩ := Main_tensor_to_image_ok _ h3
  obtain ⟨U, hU, hwU, -⟩ := Main_tensor_to_image_ok _ h1
  obtain ⟨-, herr, -⟩ :=
    Main_warp_run checkingEngine warpShortFlows _ _ _ I U U rfl rfl rfl hI hU hU
  have hwI' : I.width = 3 := hwI
  have hwU' : U.width = 1 := hwU
  refine ⟨⟨rfl, Main_warp_conv1_fail permissiveEngine warpHuge _ _ _ _ rfl rfl rfl hwide⟩,
    rfl, herr _ ?_⟩
  simp [checkingEngine, hwI', hwU']

/-- C4, as the code has it: `Main_warp` compares no dimensions.  For every 3-D image
tensor and every two 3-D flow tensors whose sizes and element counts are at most
`INT_MAX`, with flows of the image's width and height or not, each tensor is converted
to an image of its own sizes and the Warper is invoked on them; the call fails with the
Warper's failure if the Warper fails, and returns one result if the Warper returns. -/
theorem C4_no_flow_dimension_check {α : Type} [Inhabited α] (E : OpticalFlow α)
    (L : lua_State α) (t tu tv : THTensor α)
    (h1 : L.index 1 = some (.userdata "torch.Tensor" t))
    (h2 : L.index 2 = some (.userdata "torch.Tensor" tu))
    (h3 : L.index 3 = some (.userdata "torch.Tensor" tv))
    (ht : t.fitsInt) (htu : tu.fitsInt) (htv : tv.fitsInt) :
    ∃ I U V,
      (I.width = t.size 0 ∧ I.height = t.size 1) ∧
      (U.width = tu.size 0 ∧ U.height = tu.size 1) ∧
      (V.width = tv.size 0 ∧ V.height = tv.size 1) ∧
      (Main_warp E L).calls = [.warpFL I I U V] ∧
      (∀ e, E.warpFL I I U V = .error e → (Main_warp E L).result = .error (.engine e)) ∧
      (∀ W, E.warpFL I I U V = .ok W →
        ∃ res, (Main_warp E L).result = .ok res ∧ res.results.length = 1) := by
  obtain ⟨I, hI, hwI, hhI, -, -⟩ := Main_tensor_to_image_ok t ht
  obtain ⟨U, hU, hwU, hhU, -, -⟩ := Main_tensor_to_image_ok tu htu
  obtain ⟨V, hV, hwV, hhV, -, -⟩ := Main_tensor_to_image_ok tv htv
  obtain ⟨hcalls, herr, hok⟩ := Main_warp_run E L t tu tv I U V h1 h2 h3 hI hU hV
  refine ⟨I, U, V, ⟨hwI, hhI⟩, ⟨hwU, hhU⟩, ⟨hwV, hhV⟩, hcalls, herr, ?_⟩
  intro W hW
  obtain ⟨T, -, hres⟩ := hok W hW
  refine ⟨_, hres, ?_⟩
  rw [results_push1]
  rfl

/-- Witness for C4: a 2×2×1 image with flows of sizes 2×1×1 and 1×2×1. -/
theorem C4_no_flow_dimension_check_witness :
    (sampleTensor 2 2 1).fitsInt ∧ (sampleTensor 2 1 1).fitsInt ∧
    (sampleTensor 1 2 1).fitsInt ∧
    ∃ I U V,
      (I.width = 2 ∧ I.height = 2) ∧ (U.width = 2 ∧ U.height = 1) ∧
      (V.width = 1 ∧ V.height = 2) ∧
      (Main_warp checkingEngine warpMismatchedFlows).calls = [.warpFL I I U V] := by
  have ht : (sampleTensor 2 2 1).fitsInt := by simp [THTensor.fitsInt, sampleTensor, INT_MAX]
  have hu : (sampleTensor 2 1 1).fitsInt := by simp [THTensor.fitsInt, sampleTensor, INT_MAX]
  have hv : (sampleTensor 1 2 1).fitsInt := by simp [THTensor.fitsInt, sampleTensor, INT_MAX]
  obtain ⟨I, U, V, hdI, hdU, hdV, hcalls, -, -⟩ :=
    C4_no_flow_dimension_check checkingEngine warpMismatchedFlows (sampleTensor 2 2 1)
      (sampleTensor 2 1 1) (sampleTensor 1 2 1) rfl rfl rfl ht hu hv
  exact ⟨ht, hu, hv, I, U, V, hdI, hdU, hdV, hcalls⟩

/-- Counterexample to C4 as stated: `warp` on a 2×2×1 image with flows of sizes 1×1×1
and 3×1×1.  The Warper is invoked on the image of width 2 and flows of widths 1 and 3:
with a Warper that checks its inputs the failure is the Warper's own, and with a Warper
that does not the call returns a tensor. -/
theorem C4_counterexample :
    warpMismatched.stack = [.userdata "torch.Tensor" (sampleTensor 2 2 1),
      .userdata "torch.Tensor" (sampleTensor 1 1 1),
      .userdata "torch.Tensor" (sampleTensor 3 1 1)] ∧
    ((sampleTensor 1 1 1).size 0 ≠ (sampleTensor 2 2 1).size 0 ∧
     (sampleTensor 3 1 1).size 1 ≠ (sampleTensor 2 2 1).size 1) ∧
    (∃ I U V, I.width = 2 ∧ U.width = 1 ∧ V.width = 3 ∧
      (Main_warp checkingEngine warpMismatched).calls = [.warpFL I I U V] ∧
      (Main_warp checkingEngine warpMismatched).result = .error (.engine .InvalidInput)) ∧
    (∃ res, (Main_warp permissiveEngine warpMismatched).result = .ok res ∧
      res.results.length = 1) := by
  have ht : (sampleTensor 2 2 1).fitsInt := by simp [THTensor.fitsInt, sampleTensor, INT_MAX]
  have hu : (sampleTensor 1 1 1).fitsInt := by simp [THTensor.fitsInt, sampleTensor, INT_MAX]
  have hv : (sampleTensor 3 1 1).fitsInt := by simp [THTensor.fitsInt, sampleTensor, INT_MAX]
  obtain ⟨I, hI, hwI, -⟩ := Main_tensor_to_image_ok _ ht
  obtain ⟨U, hU, hwU, -⟩ := Main_tensor_to_image_ok _ hu
  obtain ⟨V, hV, hwV, -⟩ := Main_tensor_to_image_ok _ hv
  have hrun : ∀ E : OpticalFlow ℚ, _ :=
    fun E => Main_warp_run E warpMismatched _ _ _ I U V rfl rfl rfl hI hU hV
  have hwI' : I.width = 2 := hwI
  have hwU' : U.width = 1 := hwU
  have hwV' : V.width = 3 := hwV
  refine ⟨rfl, ⟨by decide, by decide⟩,
    ⟨I, U, V, hwI', hwU', hwV', (hrun checkingEngine).1, ?_⟩, ?_⟩
  · apply (hrun checkingEngine).2.1
    simp [checkingEngine, hwI', hwU']
  · obtain ⟨T, -, hres⟩ := (hrun permissiveEngine).2.2 I rfl
    refine ⟨_, hres, ?_⟩
    rw [results_push1]
    rfl

end Celiu
